import Mathlib

/-!
# vertex-mcp-server: protocol router and tool dispatcher

A shallow embedding of `internal/mcp/server.go`, `internal/mcp/tools.go`,
`internal/vertexai/client.go` and the start-up in `cmd/server/main.go`.

Conventions of the embedding:

* A Go `error` is carried by its message (`err.Error()`), so
  `fmt.Errorf("...: %w", err)` is string concatenation and a function returning
  `(T, error)` returns `Except String T`.
* A pointer that can be nil is an `Option`.  A call that can dereference one ends in
  an `Outcome`: it returns a value, returns an error, or panics; a panic of the handler
  is recovered by `net/http`, which then sends nothing and closes the connection.
* A decoded JSON value (`interface{}` filled by `encoding/json`) is a `JVal`;
  Go's nil interface is `JVal.null`.  A `map[string]interface{}` is an
  association list read with `List.lookup`.
* The standard library's JSON decoder, the generative backend and the environment
  are not part of the repository: they are parameters (`JsonLib`, the `genaiClient`
  field, `GenaiNewClient`, `getenv`).
* The handler's effects other than the HTTP response are recorded next to the
  value returned: the tool calls handed to the dispatcher and the calls made to
  the generation service.  Logging and the request context are left out.
-/

namespace VertexMcp

/-! ## JSON values -/

/-- A decoded JSON value.  Numbers are finite `float64` values, carried as the
rational they denote. -/
inductive JVal where
  | null
  | bool (b : Bool)
  | num (q : ℚ)
  | str (s : String)
  | arr (xs : List JVal)
  | obj (kvs : List (String × JVal))

/-- The Go type `map[string]interface{}`; `m[k]` is `m.lookup k`. -/
abbrev JMap := List (String × JVal)

/-- The type assertion `v.(string)` on the result of a map read `m[k]`: it holds only
for a key that is present and bound to a string. -/
def asString : Option JVal → Option String
  | some (JVal.str s) => some s
  | _ => none

/-- Whether an object has a member with the given key (false on non-objects). -/
def JVal.hasKey : JVal → String → Bool
  | JVal.obj kvs, k => (kvs.lookup k).isSome
  | _, _ => false

/-- The member of an object under the given key. -/
def JVal.field : JVal → String → Option JVal
  | JVal.obj kvs, k => kvs.lookup k
  | _, _ => none

/-! ## The generation service (`google.golang.org/genai`, external) -/

/-- The Go type `genai.ThinkingConfig`, with the one field the client sets. -/
structure ThinkingConfig where
  IncludeThoughts : Bool

/-- The Go type `genai.GenerateContentConfig`, with the fields the client sets.  The two
sampling parameters carry the value of their decimal literal. -/
structure GenerateContentConfig where
  Temperature : ℚ
  TopP : ℚ
  MaxOutputTokens : Int
  ThinkingConfig : Option ThinkingConfig

/-- One call of `Models.GenerateContent`: the model name, the text and the
configuration it was given. -/
structure GenCall where
  model : String
  text : String
  config : GenerateContentConfig

/-- The Go type `genai.Part`, as far as the client reads it. -/
structure Part where
  Text : String

/-- The Go type `genai.Content`, as far as the client reads it: `Parts` is a
`[]*Part`, whose entries can be nil. -/
structure Content where
  Parts : List (Option Part)

/-- The Go type `genai.Candidate`, as far as the client reads it: `Content` is a
`*Content`, nil for a candidate that carries no content. -/
structure Candidate where
  Content : Option Content

/-- The Go type `genai.GenerateContentResponse`, as far as the client reads it:
`Candidates` is a `[]*Candidate`, whose entries can be nil. -/
structure GenerateContentResponse where
  Candidates : List (Option Candidate)

/-- How a call ends: it returns a value, it returns an error, or it panics (here, on
a nil pointer dereference). -/
inductive Outcome (α : Type) where
  | ok (a : α)
  | error (err : String)
  | panic

/-- The value returned, if the call returned one. -/
def Outcome.toOption {α : Type} : Outcome α → Option α
  | Outcome.ok a => some a
  | _ => none

/-! ## `internal/vertexai/client.go` -/

/-- The Go struct `vertexai.Client`.  The field `genaiClient` stands for
`genaiClient.Models.GenerateContent`: what the service answers to a call, an error or
a response (which the SDK allocates, so it is not nil). -/
structure Client where
  genaiClient : GenCall → Except String GenerateContentResponse
  projectID : String
  location : String
  modelName : String

/-- The result of a client method: the `(string, error)` pair it returns, or its
panic, and the calls it made to the generation service. -/
abbrev Generated := Outcome String × List GenCall

/-- The shared tail of the two client methods, "Extract text from response".  The
expressions `resp.Candidates[0].Content.Parts` and `...Parts[0].Text` panic when the
first candidate, its content or its first part is nil. -/
def extractText (r : Except String GenerateContentResponse) : Outcome String :=
  match r with
  | .error err => .error ("failed to generate content: " ++ err)
  | .ok resp =>
    match resp.Candidates with
    | [] => .error "no candidates in response"
    | none :: _ => .panic
    | some cand :: _ =>
      match cand.Content with
      | none => .panic
      | some content =>
        match content.Parts with
        | [] => .error "no parts in response"
        | none :: _ => .panic
        | some part :: _ => .ok part.Text

/-- The method `(*Client).GenerateContent`. -/
def Client.GenerateContent (c : Client) (prompt : String) : Generated :=
  let call : GenCall :=
    { model := c.modelName, text := prompt,
      config := { Temperature := 0.7, TopP := 0.95, MaxOutputTokens := 8192,
                  ThinkingConfig := some { IncludeThoughts := false } } }
  (extractText (c.genaiClient call), [call])

/-- The method `(*Client).GenerateContentWithWebSearch`. -/
def Client.GenerateContentWithWebSearch (c : Client) (prompt : String) : Generated :=
  let enhancedPrompt := "Please provide current, up-to-date information if available. " ++ prompt
  let call : GenCall :=
    { model := c.modelName, text := enhancedPrompt,
      config := { Temperature := 0.7, TopP := 0.95, MaxOutputTokens := 8192,
                  ThinkingConfig := none } }
  (extractText (c.genaiClient call), [call])

/-! ## `internal/mcp/tools.go` -/

/-- The Go struct `ToolInputSchema`. -/
structure ToolInputSchema where
  Type_ : String
  Properties : List (String × JMap)
  Required : List String

/-- The Go struct `Tool`. -/
structure Tool where
  Name : String
  Description : String
  InputSchema : ToolInputSchema

/-- The Go struct `TextContent`. -/
structure TextContent where
  Type_ : String
  Text : String
deriving DecidableEq

/-- The Go struct `CallToolResult`; every content block the handlers store is a
`TextContent`. -/
structure CallToolResult where
  Content : List TextContent
  IsError : Bool
deriving DecidableEq

/-- The Go struct `ToolHandler`. -/
structure ToolHandler where
  vertexClient : Client

/-- The constructor `NewToolHandler`. -/
def NewToolHandler (vertexClient : Client) : ToolHandler :=
  { vertexClient := vertexClient }

/-- The method `(*ToolHandler).GetTools`. -/
def ToolHandler.GetTools (_h : ToolHandler) : List Tool :=
  [ { Name := "gemini_query",
      Description := "Query Google\x27s Gemini AI model with any prompt. Best for general questions, coding assistance, explanations, and creative tasks.",
      InputSchema :=
        { Type_ := "object",
          Properties :=
            [ ("prompt",
                [ ("type", JVal.str "string"),
                  ("description", JVal.str "The prompt or question to send to Gemini") ]) ],
          Required := ["prompt"] } },
    { Name := "gemini_query_with_search",
      Description := "Query Google\x27s Gemini AI model optimized for current information. Use this for queries that need real-time or recent data.",
      InputSchema :=
        { Type_ := "object",
          Properties :=
            [ ("prompt",
                [ ("type", JVal.str "string"),
                  ("description", JVal.str "The prompt or question to send to Gemini") ]) ],
          Required := ["prompt"] } },
    { Name := "gemini_code_review",
      Description := "Have Gemini review code and provide improvement suggestions. Automatically analyzes code quality, potential bugs, best practices, and optimization opportunities.",
      InputSchema :=
        { Type_ := "object",
          Properties :=
            [ ("code",
                [ ("type", JVal.str "string"),
                  ("description", JVal.str "The code to review") ]),
              ("language",
                [ ("type", JVal.str "string"),
                  ("description", JVal.str "Programming language (e.g., \x27go\x27, \x27python\x27, \x27javascript\x27)") ]),
              ("focus",
                [ ("type", JVal.str "string"),
                  ("description", JVal.str "Optional: Specific aspects to focus on (e.g., \x27security\x27, \x27performance\x27, \x27readability\x27)") ]) ],
          Required := ["code", "language"] } } ]

/-- The result of a tool execution: the `(*CallToolResult, error)` pair it returns, or
its panic, and the calls it made to the generation service. -/
abbrev Executed := Outcome CallToolResult × List GenCall

/-- The soft-error result the three handlers build when the client call fails with
`err`: `fmt.Sprintf("Error: %v", err)` in one text block, `IsError` set. -/
def errorResult (err : String) : CallToolResult :=
  { Content := [ { Type_ := "text", Text := "Error: " ++ err } ], IsError := true }

/-- The result the three handlers build from the response text. -/
def textResult (response : String) : CallToolResult :=
  { Content := [ { Type_ := "text", Text := response } ], IsError := false }

/-- The method `(*ToolHandler).executeGeminiQuery`. -/
def ToolHandler.executeGeminiQuery (h : ToolHandler) (args : JMap) : Executed :=
  match asString (args.lookup "prompt") with
  | none => (.error "prompt must be a string", [])
  | some prompt =>
    match h.vertexClient.GenerateContent prompt with
    | (.panic, calls) => (.panic, calls)
    | (.error err, calls) => (.ok (errorResult err), calls)
    | (.ok response, calls) => (.ok (textResult response), calls)

/-- The method `(*ToolHandler).executeGeminiQueryWithSearch`. -/
def ToolHandler.executeGeminiQueryWithSearch (h : ToolHandler) (args : JMap) : Executed :=
  match asString (args.lookup "prompt") with
  | none => (.error "prompt must be a string", [])
  | some prompt =>
    match h.vertexClient.GenerateContentWithWebSearch prompt with
    | (.panic, calls) => (.panic, calls)
    | (.error err, calls) => (.ok (errorResult err), calls)
    | (.ok response, calls) => (.ok (textResult response), calls)

/-- The fixed rubric and requested output shape that end the review prompt. -/
def reviewRubric : String :=
  "Please analyze:\n1. Code quality and best practices\n2. Potential bugs or issues\n3. Performance considerations\n4. Security concerns\n5. Readability and maintainability\n6. Specific improvements you\x27d recommend\n\nProvide your response in JSON format with this structure:\n\x7b\n  \"summary\": \"Brief overall assessment\",\n  \"quality_score\": \"1-10 rating\",\n  \"issues\": [\n    \x7b\"severity\": \"high|medium|low\", \"type\": \"bug|style|performance|security\", \"description\": \"...\", \"suggestion\": \"...\"\x7d\n  ],\n  \"strengths\": [\"strength 1\", \"strength 2\"],\n  \"recommendations\": [\"recommendation 1\", \"recommendation 2\"]\n\x7d"

/-- The prompt `executeCodeReview` builds from its three arguments. -/
def reviewPrompt (language code focus : String) : String :=
  let prompt := "Review the following " ++ language ++
    " code and provide detailed feedback.\n\nCode:\n" ++ code ++ "\n\n"
  let prompt := if focus ≠ "" then prompt ++ ("Focus specifically on: " ++ focus ++ "\n\n") else prompt
  prompt ++ reviewRubric

/-- The method `(*ToolHandler).executeCodeReview`.  `unmarshal` is
`json.Unmarshal([]byte(response), &reviewData)`, whose error decides the branch. -/
def ToolHandler.executeCodeReview (unmarshal : String → Except String JVal)
    (h : ToolHandler) (args : JMap) : Executed :=
  match asString (args.lookup "code") with
  | none => (.error "code must be a string", [])
  | some code =>
    match asString (args.lookup "language") with
    | none => (.error "language must be a string", [])
    | some language =>
      let focus := match asString (args.lookup "focus") with
        | some f => f
        | none => ""
      match h.vertexClient.GenerateContent (reviewPrompt language code focus) with
      | (.panic, calls) => (.panic, calls)
      | (.error err, calls) => (.ok (errorResult err), calls)
      | (.ok response, calls) =>
        match unmarshal response with
        | .error _ => (.ok (textResult response), calls)
        | .ok _ => (.ok (textResult response), calls)

/-- The method `(*ToolHandler).ExecuteTool`. -/
def ToolHandler.ExecuteTool (unmarshal : String → Except String JVal)
    (h : ToolHandler) (toolName : String) (arguments : JMap) : Executed :=
  if toolName = "gemini_query" then h.executeGeminiQuery arguments
  else if toolName = "gemini_query_with_search" then h.executeGeminiQueryWithSearch arguments
  else if toolName = "gemini_code_review" then h.executeCodeReview unmarshal arguments
  else (.error ("unknown tool: " ++ toolName), [])

/-- The JSON encoding of a `TextContent`, by its struct tags. -/
def TextContent.toJSON (t : TextContent) : JVal :=
  JVal.obj [("type", JVal.str t.Type_), ("text", JVal.str t.Text)]

/-- The JSON encoding of a `CallToolResult`, by its struct tags: `isError` is
`omitempty`, so it is written only when true. -/
def CallToolResult.toJSON (r : CallToolResult) : JVal :=
  JVal.obj ([("content", JVal.arr (r.Content.map TextContent.toJSON))] ++
    (if r.IsError then [("isError", JVal.bool true)] else []))

/-- The JSON encoding of a `ToolInputSchema`, by its struct tags. -/
def ToolInputSchema.toJSON (i : ToolInputSchema) : JVal :=
  JVal.obj [("type", JVal.str i.Type_),
    ("properties", JVal.obj (i.Properties.map fun p => (p.1, JVal.obj p.2))),
    ("required", JVal.arr (i.Required.map JVal.str))]

/-- The JSON encoding of a `Tool`, by its struct tags. -/
def Tool.toJSON (t : Tool) : JVal :=
  JVal.obj [("name", JVal.str t.Name), ("description", JVal.str t.Description),
    ("inputSchema", t.InputSchema.toJSON)]

/-! ## `internal/mcp/server.go` -/

/-- A byte string: a request body, a `json.RawMessage`. -/
abbrev Bytes := List UInt8

/-- The request envelope `req` that `ServeHTTP` decodes the body into.  `ID` is an
`interface{}`: it is nil, here `JVal.null`, both when the `id` member is absent and
when it is `null`. -/
structure JsonRpcRequest where
  JSONRPC : String
  ID : JVal
  Method : String
  Params : Bytes

/-- The struct `params` that `handleCallTool` decodes the raw parameters into. -/
structure CallToolParams where
  Name : String
  Arguments : JMap

/-- The three uses the code makes of `encoding/json` decoding, as functions of the
bytes decoded; an error is carried by its message. -/
structure JsonLib where
  /-- The call `json.NewDecoder(r.Body).Decode(&req)` in `ServeHTTP`. -/
  decodeRequest : Bytes → Except String JsonRpcRequest
  /-- The call `json.Unmarshal(paramsRaw, &params)` in `handleCallTool`. -/
  unmarshalParams : Bytes → Except String CallToolParams
  /-- The call `json.Unmarshal([]byte(response), &reviewData)` in `executeCodeReview`. -/
  unmarshalValue : String → Except String JVal

/-- The Go struct `Server`. -/
structure Server where
  toolHandler : ToolHandler
  vertexClient : Client

/-- The constructor `NewServer`. -/
def NewServer (vertexClient : Client) : Server :=
  { toolHandler := NewToolHandler vertexClient, vertexClient := vertexClient }

/-- What `ServeHTTP` reads of the `*http.Request`. -/
structure HttpRequest where
  Method : String
  Body : Bytes

/-- What was written as the body of a response: nothing, a plain text, or the JSON
encoding of a value followed by a newline. -/
inductive ResponseBody where
  | empty
  | text (s : String)
  | json (v : JVal)

/-- The state of the `http.ResponseWriter`: the header map, the status (200 unless
`WriteHeader` is called) and the body written. -/
structure HttpResponse where
  Header : List (String × String)
  Status : Nat
  Body : ResponseBody

/-- The call `Header().Set(k, v)`: the entry for `k` is replaced. -/
def setHeader (h : List (String × String)) (k v : String) : List (String × String) :=
  h.filter (fun e => e.1 ≠ k) ++ [(k, v)]

/-- The library function `http.Error`: a plain-text body with the given status. -/
def httpError (w : HttpResponse) (error : String) (code : Nat) : HttpResponse :=
  { Header := setHeader (setHeader w.Header "Content-Type" "text/plain; charset=utf-8")
      "X-Content-Type-Options" "nosniff",
    Status := code,
    Body := ResponseBody.text (error ++ "\n") }

/-- The writer after the three `Header().Set` calls that open `ServeHTTP`. -/
def corsWriter : HttpResponse :=
  { Header := [("Access-Control-Allow-Origin", "*"),
      ("Access-Control-Allow-Methods", "POST, OPTIONS"),
      ("Access-Control-Allow-Headers", "Content-Type")],
    Status := 200, Body := ResponseBody.empty }

/-- What one run of `ServeHTTP` did: the state of the response writer when the handler
ended, the tool calls handed to `ExecuteTool`, the calls made to the generation
service, and whether the handler ended in a panic.  After a panic `net/http` sends
nothing of the writer and closes the connection: the client gets no response. -/
structure Served where
  response : HttpResponse
  dispatched : List (String × JMap)
  generated : List GenCall
  panicked : Bool

/-- The method `(*Server).handleInitialize`. -/
def Server.handleInitialize (_s : Server) : JVal :=
  JVal.obj [("protocolVersion", JVal.str "2025-06-18"),
    ("capabilities", JVal.obj [("tools", JVal.obj [])]),
    ("serverInfo", JVal.obj [("name", JVal.str "vertex-mcp-server"),
      ("version", JVal.str "1.0.0")])]

/-- The method `(*Server).handleListTools`. -/
def Server.handleListTools (s : Server) : JVal :=
  let tools := s.toolHandler.GetTools
  JVal.obj [("tools", JVal.arr (tools.map Tool.toJSON))]

/-- The method `(*Server).handleCallTool`: the `(interface{}, error)` pair it returns,
or its panic, the tool calls it handed to `ExecuteTool` and the generation calls those
made. -/
def Server.handleCallTool (J : JsonLib) (s : Server) (paramsRaw : Bytes) :
    Outcome CallToolResult × List (String × JMap) × List GenCall :=
  match J.unmarshalParams paramsRaw with
  | .error err => (.error ("invalid params: " ++ err), [], [])
  | .ok params =>
    let r := s.toolHandler.ExecuteTool J.unmarshalValue params.Name params.Arguments
    (r.1, [(params.Name, params.Arguments)], r.2)

/-- The method `(*Server).sendSuccess`. -/
def Server.sendSuccess (_s : Server) (w : HttpResponse) (id : JVal) (result : JVal) :
    HttpResponse :=
  let resp := JVal.obj [("jsonrpc", JVal.str "2.0"), ("id", id), ("result", result)]
  { w with Header := setHeader w.Header "Content-Type" "application/json",
           Body := ResponseBody.json resp }

/-- The method `(*Server).sendError`. -/
def Server.sendError (_s : Server) (w : HttpResponse) (id : JVal) (code : Int)
    (message : String) : HttpResponse :=
  let resp := JVal.obj [("jsonrpc", JVal.str "2.0"), ("id", id),
    ("error", JVal.obj [("code", JVal.num code), ("message", JVal.str message)])]
  { w with Header := setHeader w.Header "Content-Type" "application/json",
           Body := ResponseBody.json resp }

/-- The method `(*Server).ServeHTTP`. -/
def Server.ServeHTTP (J : JsonLib) (s : Server) (r : HttpRequest) : Served :=
  let w : HttpResponse := { Header := [], Status := 200, Body := ResponseBody.empty }
  let w := { w with Header := setHeader w.Header "Access-Control-Allow-Origin" "*" }
  let w := { w with Header := setHeader w.Header "Access-Control-Allow-Methods" "POST, OPTIONS" }
  let w := { w with Header := setHeader w.Header "Access-Control-Allow-Headers" "Content-Type" }
  if r.Method = "OPTIONS" then
    { response := { w with Status := 200 }, dispatched := [], generated := [],
      panicked := false }
  else if r.Method ≠ "POST" then
    { response := httpError w "Method not allowed" 405, dispatched := [], generated := [],
      panicked := false }
  else
    match J.decodeRequest r.Body with
    | .error err =>
      { response := httpError w ("Invalid JSON: " ++ err) 400, dispatched := [],
        generated := [], panicked := false }
    | .ok req =>
      if req.Method = "initialize" then
        { response := s.sendSuccess w req.ID s.handleInitialize,
          dispatched := [], generated := [], panicked := false }
      else if req.Method = "notifications/initialized" then
        { response := { w with Status := 204 }, dispatched := [], generated := [],
          panicked := false }
      else if req.Method = "tools/list" then
        { response := s.sendSuccess w req.ID s.handleListTools,
          dispatched := [], generated := [], panicked := false }
      else if req.Method = "tools/call" then
        match s.handleCallTool J req.Params with
        | (.panic, dispatched, generated) =>
          { response := w, dispatched := dispatched, generated := generated,
            panicked := true }
        | (.error err, dispatched, generated) =>
          { response := s.sendError w req.ID (-32603) err,
            dispatched := dispatched, generated := generated, panicked := false }
        | (.ok result, dispatched, generated) =>
          { response := s.sendSuccess w req.ID result.toJSON,
            dispatched := dispatched, generated := generated, panicked := false }
      else
        { response := s.sendError w req.ID (-32601) ("Method not found: " ++ req.Method),
          dispatched := [], generated := [], panicked := false }

/-! ## Reading a response -/

/-- The JSON value a response carries as its body, if it carries one. -/
def HttpResponse.jsonBody (w : HttpResponse) : Option JVal :=
  match w.Body with
  | ResponseBody.json v => some v
  | _ => none

/-- The integer a JSON number denotes, if it is one. -/
def JVal.asInt : JVal → Option Int
  | JVal.num q => if q.den = 1 then some q.num else none
  | _ => none

/-- The text of a JSON string. -/
def JVal.asStr : JVal → Option String
  | JVal.str s => some s
  | _ => none

/-- The `error.code` member of a JSON-RPC envelope. -/
def JVal.errorCode (v : JVal) : Option Int :=
  ((v.field "error").bind (fun e => e.field "code")).bind JVal.asInt

/-- The `error.message` member of a JSON-RPC envelope. -/
def JVal.errorMessage (v : JVal) : Option String :=
  ((v.field "error").bind (fun e => e.field "message")).bind JVal.asStr

/-- A well-formed JSON-RPC response: an object whose `jsonrpc` member is "2.0" and
which has a `result` member exactly when it has no `error` member. -/
def JVal.isResponse (v : JVal) : Prop :=
  v.field "jsonrpc" = some (JVal.str "2.0") ∧ v.hasKey "result" = !v.hasKey "error"

/-- Whether a call returned a fault: the error is set and there is no value. -/
def isFault {α : Type} : Outcome α → Bool
  | .error _ => true
  | _ => false

/-- The fault message of a call, if it returned a fault. -/
def faultMessage {α : Type} : Outcome α → Option String
  | .error e => some e
  | _ => none

/-- What a handler does once its arguments are validated: the client's outcome shaped
into a result, or its panic passed on, next to the calls made. -/
def shaped (g : Generated) : Executed :=
  (match g.1 with
    | .panic => .panic
    | .error err => .ok (errorResult err)
    | .ok response => .ok (textResult response), g.2)

/-! ## Stubs for the external parts, used to run the code on concrete inputs -/

/-- A generation service that answers every call with one candidate holding the
text `s`. -/
def answering (s : String) : GenCall → Except String GenerateContentResponse :=
  fun _ => .ok { Candidates := [ some { Content := some { Parts := [ some { Text := s } ] } } ] }

/-- A generation service that answers every call with one candidate without content,
as for a generation stopped before any text. -/
def contentless : GenCall → Except String GenerateContentResponse :=
  fun _ => .ok { Candidates := [ some { Content := none } ] }

/-- A generation service that fails every call with the error `e`. -/
def failing (e : String) : GenCall → Except String GenerateContentResponse :=
  fun _ => .error e

/-- A client over the given generation service. -/
def clientOver (g : GenCall → Except String GenerateContentResponse) : Client :=
  { genaiClient := g, projectID := "p", location := "global", modelName := "gemini-3-pro-preview" }

/-- A JSON library stub whose decoders give back the given envelope and parameters
whatever the bytes, and which rejects every response text. -/
def fixedLib (req : JsonRpcRequest) (params : CallToolParams) : JsonLib :=
  { decodeRequest := fun _ => .ok req,
    unmarshalParams := fun _ => .ok params,
    unmarshalValue := fun _ => .error "invalid character" }

/-- A POST request; the stub libraries do not read its body. -/
def postRequest : HttpRequest :=
  { Method := "POST", Body := [] }

/-- An envelope with the given id and method; the stub libraries do not read its raw
parameters. -/
def envelope (id : JVal) (method : String) : JsonRpcRequest :=
  { JSONRPC := "2.0", ID := id, Method := method, Params := [] }

/-- A JSON library stub whose parameter decoder fails with the given error. -/
def badParamsLib (req : JsonRpcRequest) (err : String) : JsonLib :=
  { decodeRequest := fun _ => .ok req,
    unmarshalParams := fun _ => .error err,
    unmarshalValue := fun _ => .error "invalid character" }

/-- Whether the arguments fail the check `args[k].(string)`: the key is absent or bound
to a value that is not a string. -/
def notAString (args : JMap) (k : String) : Bool :=
  (asString (args.lookup k)).isNone

/-! ## `NewClient` and the start of `cmd/server/main.go` -/

/-- The Go struct `vertexai.Config`. -/
structure Config where
  ProjectID : String
  Location : String
  ModelName : String

/-- The Go type `genai.ClientConfig`, with the fields `NewClient` sets beside the
constant backend `genai.BackendVertexAI`. -/
structure GenaiClientConfig where
  Project : String
  Location : String

/-- The library function `genai.NewClient`: the service handle it gives for a
configuration, or its error. -/
abbrev GenaiNewClient :=
  GenaiClientConfig → Except String (GenCall → Except String GenerateContentResponse)

/-- The function `vertexai.NewClient`: the `(*Client, error)` pair it returns and the
calls it made to `genai.NewClient`. -/
def NewClient (newGenai : GenaiNewClient) (cfg : Config) :
    Except String Client × List GenaiClientConfig :=
  if cfg.ProjectID = "" then (.error "GOOGLE_CLOUD_PROJECT is required", [])
  else
    let cfg := if cfg.Location = "" then { cfg with Location := "global" } else cfg
    let cfg := if cfg.ModelName = "" then { cfg with ModelName := "gemini-3-pro-preview" } else cfg
    let cc : GenaiClientConfig := { Project := cfg.ProjectID, Location := cfg.Location }
    match newGenai cc with
    | .error err => (.error ("failed to create Vertex AI client: " ++ err), [cc])
    | .ok client =>
      (.ok { genaiClient := client, projectID := cfg.ProjectID, location := cfg.Location,
             modelName := cfg.ModelName }, [cc])

/-- The configuration part of `main`, from "Load configuration from environment" to
the override of the location: the configuration and port it settles on, or the message
of the `log.Fatal` that ends the process.  `getenv` is `os.Getenv`, after the `.env`
file is loaded. -/
def mainConfig (getenv : String → String) : Except String (Config × String) :=
  let config : Config :=
    { ProjectID := getenv "GOOGLE_CLOUD_PROJECT",
      Location := getenv "GOOGLE_CLOUD_LOCATION",
      ModelName := getenv "GEMINI_MODEL" }
  let config := if config.Location = "" then { config with Location := "global" } else config
  let config :=
    if config.ModelName = "" then { config with ModelName := "gemini-3-pro-preview" } else config
  if config.ProjectID = "" then
    .error "GOOGLE_CLOUD_PROJECT environment variable is required"
  else
    let port := getenv "PORT"
    let port := if port = "" then "8080" else port
    let config :=
      if (config.ModelName = "gemini-3-pro-preview" ∨ config.ModelName = "gemini-3-flash-preview")
          ∧ config.Location ≠ "global" then
        { config with Location := "global" }
      else config
    .ok (config, port)

/-- How the start-up in `main` ends: the process exits in a `log.Fatal`, or the MCP
server is created over the client and handed to the HTTP server on the port. -/
inductive Startup where
  | fatal (message : String)
  | serving (config : Config) (port : String) (server : Server)

/-- What the start-up did: how it ended and the calls made to `genai.NewClient`. -/
structure Started where
  outcome : Startup
  clients : List GenaiClientConfig

/-- The function `main`, up to the creation of the MCP server. -/
def main (getenv : String → String) (newGenai : GenaiNewClient) : Started :=
  match mainConfig getenv with
  | .error message => { outcome := Startup.fatal message, clients := [] }
  | .ok (config, port) =>
    match NewClient newGenai config with
    | (.error err, clients) =>
      { outcome := Startup.fatal ("Failed to create Vertex AI client: " ++ err),
        clients := clients }
    | (.ok vertexClient, clients) =>
      { outcome := Startup.serving config port (NewServer vertexClient), clients := clients }

/-- An environment that sets the project, the location and the model. -/
def envOf (project location model : String) : String → String :=
  fun name =>
    if name = "GOOGLE_CLOUD_PROJECT" then project
    else if name = "GOOGLE_CLOUD_LOCATION" then location
    else if name = "GEMINI_MODEL" then model
    else ""

/-! ## The response as a client decodes it -/

/-- The `error` member of a response in the spec's data model (section 3). -/
structure RpcError where
  code : Int
  message : String

/-- The `JsonRpcResponse` of the spec's data model (section 3): the typed value a
client decodes a body into.  `result` and `error` are populated by a member that is
present and not null. -/
structure JsonRpcResponse where
  jsonrpc : String
  id : JVal
  result : Option JVal
  error : Option RpcError

/-- What a member populates a pointer or interface field with when a JSON object is
decoded: nothing when the member is absent or null. -/
def populated : Option JVal → Option JVal
  | some JVal.null => none
  | o => o

/-- Decoding the `error` member: an object with an integer `code` and a string
`message`. -/
def decodeError : JVal → Option RpcError
  | JVal.obj kvs =>
    match kvs.lookup "code", kvs.lookup "message" with
    | some (JVal.num q), some (JVal.str m) =>
      if q.den = 1 then some { code := q.num, message := m } else none
    | _, _ => none
  | _ => none

/-- Decoding a body into the `JsonRpcResponse` of the data model; it fails on a value
that is not an object, has no string `jsonrpc`, or has an ill-formed `error`. -/
def decodeResponse : JVal → Option JsonRpcResponse
  | JVal.obj kvs =>
    match kvs.lookup "jsonrpc" with
    | some (JVal.str j) =>
      match populated (kvs.lookup "error") with
      | none =>
        some { jsonrpc := j, id := (kvs.lookup "id").getD JVal.null,
               result := populated (kvs.lookup "result"), error := none }
      | some e =>
        (decodeError e).map fun err =>
          { jsonrpc := j, id := (kvs.lookup "id").getD JVal.null,
            result := populated (kvs.lookup "result"), error := some err }
    | _ => none
  | _ => none

/-! ## Facts about the dispatcher -/

theorem asString_eq_none_iff (o : Option JVal) :
    asString o = none ↔ (o = none ∨ ∃ v, o = some v ∧ ∀ s, v ≠ JVal.str s) := by
  rcases o with _ | v
  · simp [asString]
  · cases v <;> simp [asString]

theorem executeGeminiQuery_eq (h : ToolHandler) (args : JMap) :
    h.executeGeminiQuery args =
      match asString (args.lookup "prompt") with
      | none => (.error "prompt must be a string", [])
      | some prompt => shaped (h.vertexClient.GenerateContent prompt) := by
  unfold ToolHandler.executeGeminiQuery shaped
  cases asString (args.lookup "prompt") with
  | none => rfl
  | some p =>
    simp only [Client.GenerateContent]
    cases extractText _ <;> rfl

theorem executeGeminiQueryWithSearch_eq (h : ToolHandler) (args : JMap) :
    h.executeGeminiQueryWithSearch args =
      match asString (args.lookup "prompt") with
      | none => (.error "prompt must be a string", [])
      | some prompt => shaped (h.vertexClient.GenerateContentWithWebSearch prompt) := by
  unfold ToolHandler.executeGeminiQueryWithSearch shaped
  cases asString (args.lookup "prompt") with
  | none => rfl
  | some p =>
    simp only [Client.GenerateContentWithWebSearch]
    cases extractText _ <;> rfl

theorem executeCodeReview_eq (u : String → Except String JVal) (h : ToolHandler) (args : JMap) :
    h.executeCodeReview u args =
      match asString (args.lookup "code") with
      | none => (.error "code must be a string", [])
      | some code =>
        match asString (args.lookup "language") with
        | none => (.error "language must be a string", [])
        | some language =>
          shaped (h.vertexClient.GenerateContent
            (reviewPrompt language code ((asString (args.lookup "focus")).getD ""))) := by
  unfold ToolHandler.executeCodeReview shaped
  cases asString (args.lookup "code") with
  | none => rfl
  | some c =>
    cases asString (args.lookup "language") with
    | none => rfl
    | some l =>
      have hf : (match asString (args.lookup "focus") with | some f => f | none => "")
          = (asString (args.lookup "focus")).getD "" := by
        cases asString (args.lookup "focus") <;> rfl
      simp only [hf, Client.GenerateContent]
      cases extractText _ with
      | panic => rfl
      | error e => rfl
      | ok t =>
        dsimp only
        cases u t <;> rfl

/-- The one call a client method makes. -/
theorem GenerateContent_calls (c : Client) (p : String) :
    ∃ call, c.GenerateContent p = (extractText (c.genaiClient call), [call]) :=
  ⟨_, rfl⟩

theorem GenerateContentWithWebSearch_calls (c : Client) (p : String) :
    ∃ call, c.GenerateContentWithWebSearch p = (extractText (c.genaiClient call), [call]) :=
  ⟨_, rfl⟩

theorem ExecuteTool_query (u : String → Except String JVal) (h : ToolHandler) (args : JMap) :
    h.ExecuteTool u "gemini_query" args = h.executeGeminiQuery args := by
  simp [ToolHandler.ExecuteTool]

theorem ExecuteTool_search (u : String → Except String JVal) (h : ToolHandler) (args : JMap) :
    h.ExecuteTool u "gemini_query_with_search" args = h.executeGeminiQueryWithSearch args := by
  simp [ToolHandler.ExecuteTool]

theorem ExecuteTool_review (u : String → Except String JVal) (h : ToolHandler) (args : JMap) :
    h.ExecuteTool u "gemini_code_review" args = h.executeCodeReview u args := by
  simp [ToolHandler.ExecuteTool]

/-- The two ways a registered tool can run: a validation fault on a required argument
without any call, or one call to the generation service whose outcome is shaped into
the result. -/
theorem ExecuteTool_registered (u : String → Except String JVal) (h : ToolHandler)
    (t : Tool) (ht : t ∈ h.GetTools) (args : JMap) :
    ((∃ k ∈ t.InputSchema.Required, asString (args.lookup k) = none) ∧
      ∃ m, h.ExecuteTool u t.Name args = (.error m, [])) ∨
    ((∀ k ∈ t.InputSchema.Required, asString (args.lookup k) ≠ none) ∧
      ∃ call, h.ExecuteTool u t.Name args =
        shaped (extractText (h.vertexClient.genaiClient call), [call])) := by
  simp only [ToolHandler.GetTools, List.mem_cons, List.mem_singleton, List.not_mem_nil,
    or_false] at ht
  rcases ht with rfl | rfl | rfl
  · simp only [ExecuteTool_query, executeGeminiQuery_eq]
    cases hp : asString (args.lookup "prompt") with
    | none => left; exact ⟨⟨"prompt", by simp, hp⟩, _, rfl⟩
    | some p =>
      right
      refine ⟨by simp [hp], ?_⟩
      obtain ⟨call, hc⟩ := GenerateContent_calls h.vertexClient p
      exact ⟨call, by simp only [hc]⟩
  · simp only [ExecuteTool_search, executeGeminiQueryWithSearch_eq]
    cases hp : asString (args.lookup "prompt") with
    | none => left; exact ⟨⟨"prompt", by simp, hp⟩, _, rfl⟩
    | some p =>
      right
      refine ⟨by simp [hp], ?_⟩
      obtain ⟨call, hc⟩ := GenerateContentWithWebSearch_calls h.vertexClient p
      exact ⟨call, by simp only [hc]⟩
  · simp only [ExecuteTool_review, executeCodeReview_eq]
    cases hc : asString (args.lookup "code") with
    | none => left; exact ⟨⟨"code", by simp, hc⟩, _, rfl⟩
    | some c =>
      cases hl : asString (args.lookup "language") with
      | none => left; exact ⟨⟨"language", by simp, hl⟩, _, rfl⟩
      | some l =>
        right
        refine ⟨by simp [hc, hl], ?_⟩
        obtain ⟨call, hcall⟩ := GenerateContent_calls h.vertexClient
          (reviewPrompt l c ((asString (args.lookup "focus")).getD ""))
        exact ⟨call, by simp only [hcall]⟩

/-- The JSON library's verdict on the response text does not change what
`ExecuteTool` returns. -/
theorem ExecuteTool_unmarshal_irrelevant (u u0 : String → Except String JVal)
    (h : ToolHandler) (toolName : String) (args : JMap) :
    h.ExecuteTool u toolName args = h.ExecuteTool u0 toolName args := by
  unfold ToolHandler.ExecuteTool
  simp only [executeCodeReview_eq]

theorem isFault_shaped (g : Generated) : isFault (shaped g).1 = false := by
  unfold shaped
  cases g.1 <;> rfl

/-- A validated handler returns no fault. -/
theorem shaped_ne_error (g : Generated) (m : String) : (shaped g).1 ≠ .error m := by
  unfold shaped
  cases g.1 <;> exact fun e => by cases e

/-! ## Facts about the router -/

theorem ServeHTTP_post (J : JsonLib) (s : Server) (r : HttpRequest) (req : JsonRpcRequest)
    (hm : r.Method = "POST") (hd : J.decodeRequest r.Body = .ok req) :
    s.ServeHTTP J r =
      if req.Method = "initialize" then
        { response := s.sendSuccess corsWriter req.ID s.handleInitialize,
          dispatched := [], generated := [], panicked := false }
      else if req.Method = "notifications/initialized" then
        { response := { corsWriter with Status := 204 }, dispatched := [], generated := [],
          panicked := false }
      else if req.Method = "tools/list" then
        { response := s.sendSuccess corsWriter req.ID s.handleListTools,
          dispatched := [], generated := [], panicked := false }
      else if req.Method = "tools/call" then
        match s.handleCallTool J req.Params with
        | (.panic, dispatched, generated) =>
          { response := corsWriter, dispatched := dispatched, generated := generated,
            panicked := true }
        | (.error err, dispatched, generated) =>
          { response := s.sendError corsWriter req.ID (-32603) err,
            dispatched := dispatched, generated := generated, panicked := false }
        | (.ok result, dispatched, generated) =>
          { response := s.sendSuccess corsWriter req.ID result.toJSON,
            dispatched := dispatched, generated := generated, panicked := false }
      else
        { response := s.sendError corsWriter req.ID (-32601) ("Method not found: " ++ req.Method),
          dispatched := [], generated := [], panicked := false } := by
  unfold Server.ServeHTTP
  rw [hm]
  simp only [hd]
  rfl

theorem ServeHTTP_call (J : JsonLib) (s : Server) (r : HttpRequest) (req : JsonRpcRequest)
    (hm : r.Method = "POST") (hd : J.decodeRequest r.Body = .ok req)
    (hc : req.Method = "tools/call") :
    s.ServeHTTP J r =
      { response :=
          match (s.handleCallTool J req.Params).1 with
          | .panic => corsWriter
          | .error err => s.sendError corsWriter req.ID (-32603) err
          | .ok result => s.sendSuccess corsWriter req.ID result.toJSON,
        dispatched := (s.handleCallTool J req.Params).2.1,
        generated := (s.handleCallTool J req.Params).2.2,
        panicked :=
          match (s.handleCallTool J req.Params).1 with
          | .panic => true
          | _ => false } := by
  rw [ServeHTTP_post J s r req hm hd, hc]
  simp only [if_neg (show ¬ "tools/call" = "initialize" by decide),
    if_neg (show ¬ "tools/call" = "notifications/initialized" by decide),
    if_neg (show ¬ "tools/call" = "tools/list" by decide), if_true]
  rcases s.handleCallTool J req.Params with ⟨a | b | _, d, g⟩ <;> rfl

theorem handleCallTool_ok (J : JsonLib) (s : Server) (raw : Bytes) (params : CallToolParams)
    (hp : J.unmarshalParams raw = .ok params) :
    s.handleCallTool J raw =
      ((s.toolHandler.ExecuteTool J.unmarshalValue params.Name params.Arguments).1,
        [(params.Name, params.Arguments)],
        (s.toolHandler.ExecuteTool J.unmarshalValue params.Name params.Arguments).2) := by
  unfold Server.handleCallTool
  rw [hp]

theorem handleCallTool_bad (J : JsonLib) (s : Server) (raw : Bytes) (err : String)
    (hp : J.unmarshalParams raw = .error err) :
    s.handleCallTool J raw = (.error ("invalid params: " ++ err), [], []) := by
  unfold Server.handleCallTool
  rw [hp]

/-! ## C1 to C3 and C7: the dispatcher's contract -/

/-- C1. For a registered tool descriptor `t`, any arguments and any backend,
`ExecuteTool` on `t.Name` returns a fault exactly when some name listed in
`t.InputSchema.Required` is absent from the arguments or bound to a value that is not
a string; and the fault decision is the same for every other backend and JSON
library. -/
theorem ExecuteTool_fault_iff_required (u u' : String → Except String JVal)
    (h h' : ToolHandler) (t : Tool) (ht : t ∈ h.GetTools) (args : JMap) :
    (isFault (h.ExecuteTool u t.Name args).1 = true ↔
      ∃ k ∈ t.InputSchema.Required,
        args.lookup k = none ∨ ∃ v, args.lookup k = some v ∧ ∀ s, v ≠ JVal.str s) ∧
    isFault (h'.ExecuteTool u' t.Name args).1 = isFault (h.ExecuteTool u t.Name args).1 := by
  have key : ∀ (u0 : String → Except String JVal) (h0 : ToolHandler),
      (isFault (h0.ExecuteTool u0 t.Name args).1 = true ↔
        ∃ k ∈ t.InputSchema.Required, asString (args.lookup k) = none) := by
    intro u0 h0
    have ht0 : t ∈ h0.GetTools := ht
    rcases ExecuteTool_registered u0 h0 t ht0 args with ⟨hk, m, hm⟩ | ⟨hk, call, hc⟩
    · rw [hm]
      exact ⟨fun _ => hk, fun _ => rfl⟩
    · rw [hc, isFault_shaped]
      constructor
      · intro hcontra
        exact absurd hcontra (by decide)
      · rintro ⟨k, hkr, hkn⟩
        exact absurd hkn (hk k hkr)
  refine ⟨?_, ?_⟩
  · rw [key u h]
    simp only [asString_eq_none_iff]
  · have h1 := key u h
    have h2 := key u' h'
    cases hb : isFault (h.ExecuteTool u t.Name args).1 <;>
      cases hb' : isFault (h'.ExecuteTool u' t.Name args).1 <;> simp_all

/-- C1 at the code review descriptor with `language` bound to a number. -/
theorem ExecuteTool_fault_iff_required_witness :
    (isFault ((NewToolHandler (clientOver (answering "ok"))).ExecuteTool
        (fun _ => .error "invalid character") "gemini_code_review"
        [("code", JVal.str "x=1"), ("language", JVal.num 3)]).1 = true ↔
      ∃ k ∈ ["code", "language"],
        List.lookup k [("code", JVal.str "x=1"), ("language", JVal.num 3)] = none ∨
          ∃ v, List.lookup k [("code", JVal.str "x=1"), ("language", JVal.num 3)] = some v ∧
            ∀ s, v ≠ JVal.str s) ∧
    isFault ((NewToolHandler (clientOver (failing "quota"))).ExecuteTool
        (fun _ => .ok JVal.null) "gemini_code_review"
        [("code", JVal.str "x=1"), ("language", JVal.num 3)]).1 =
      isFault ((NewToolHandler (clientOver (answering "ok"))).ExecuteTool
        (fun _ => .error "invalid character") "gemini_code_review"
        [("code", JVal.str "x=1"), ("language", JVal.num 3)]).1 :=
  ExecuteTool_fault_iff_required (fun _ => .error "invalid character") (fun _ => .ok JVal.null)
    (NewToolHandler (clientOver (answering "ok"))) (NewToolHandler (clientOver (failing "quota")))
    { Name := "gemini_code_review",
      Description := "Have Gemini review code and provide improvement suggestions. Automatically analyzes code quality, potential bugs, best practices, and optimization opportunities.",
      InputSchema :=
        { Type_ := "object",
          Properties :=
            [ ("code",
                [ ("type", JVal.str "string"),
                  ("description", JVal.str "The code to review") ]),
              ("language",
                [ ("type", JVal.str "string"),
                  ("description", JVal.str "Programming language (e.g., \x27go\x27, \x27python\x27, \x27javascript\x27)") ]),
              ("focus",
                [ ("type", JVal.str "string"),
                  ("description", JVal.str "Optional: Specific aspects to focus on (e.g., \x27security\x27, \x27performance\x27, \x27readability\x27)") ]) ],
          Required := ["code", "language"] } }
    (by simp [ToolHandler.GetTools])
    [("code", JVal.str "x=1"), ("language", JVal.num 3)]

/-- C2. For a registered tool whose arguments pass validation, when the backend call
it makes fails with the error `e`, `ExecuteTool` returns no fault and the result with
`IsError` set and the single text block `"Error: " ++ e`; and the router answers a
`tools/call` request for it with the success envelope (`result`, no `error`)
carrying that result. -/
theorem ExecuteTool_backend_failure_is_soft (J : JsonLib) (s : Server) (t : Tool)
    (ht : t ∈ s.toolHandler.GetTools) (args : JMap) (call : GenCall) (e : String)
    (hvalid : isFault (s.toolHandler.ExecuteTool J.unmarshalValue t.Name args).1 = false)
    (hcall : call ∈ (s.toolHandler.ExecuteTool J.unmarshalValue t.Name args).2)
    (hfail : extractText (s.toolHandler.vertexClient.genaiClient call) = .error e)
    (r : HttpRequest) (req : JsonRpcRequest) (hm : r.Method = "POST")
    (hd : J.decodeRequest r.Body = .ok req) (hc : req.Method = "tools/call")
    (hp : J.unmarshalParams req.Params = .ok { Name := t.Name, Arguments := args }) :
    (s.toolHandler.ExecuteTool J.unmarshalValue t.Name args).1 =
        .ok { Content := [ { Type_ := "text", Text := "Error: " ++ e } ], IsError := true } ∧
    (s.ServeHTTP J r).response.Body = ResponseBody.json (JVal.obj
        [("jsonrpc", JVal.str "2.0"), ("id", req.ID),
         ("result", JVal.obj [("content", JVal.arr
            [JVal.obj [("type", JVal.str "text"), ("text", JVal.str ("Error: " ++ e))]]),
          ("isError", JVal.bool true)])]) := by
  have hres : (s.toolHandler.ExecuteTool J.unmarshalValue t.Name args).1 =
      .ok { Content := [ { Type_ := "text", Text := "Error: " ++ e } ], IsError := true } := by
    rcases ExecuteTool_registered J.unmarshalValue s.toolHandler t ht args with
      ⟨_, m, hm⟩ | ⟨_, call0, hc⟩
    · rw [hm] at hvalid
      simp [isFault] at hvalid
    · rw [hc] at hcall ⊢
      have hcc : call = call0 := by simpa [shaped] using hcall
      subst hcc
      simp only [shaped, hfail]
      rfl
  refine ⟨hres, ?_⟩
  rw [ServeHTTP_call J s r req hm hd hc, handleCallTool_ok J s req.Params _ hp]
  simp only [hres]
  rfl

/-- C2 on `gemini_query` over a service that fails with "quota". -/
theorem ExecuteTool_backend_failure_is_soft_witness :
    ((NewServer (clientOver (failing "quota"))).toolHandler.ExecuteTool
        (fun _ => .error "invalid character") "gemini_query" [("prompt", JVal.str "hi")]).1 =
      .ok { Content := [ { Type_ := "text", Text := "Error: failed to generate content: quota" } ],
            IsError := true } ∧
    ((NewServer (clientOver (failing "quota"))).ServeHTTP
        (fixedLib (envelope (JVal.num 7) "tools/call")
          { Name := "gemini_query", Arguments := [("prompt", JVal.str "hi")] })
        postRequest).response.Body =
      ResponseBody.json (JVal.obj
        [("jsonrpc", JVal.str "2.0"), ("id", JVal.num 7),
         ("result", JVal.obj [("content", JVal.arr
            [JVal.obj [("type", JVal.str "text"),
              ("text", JVal.str "Error: failed to generate content: quota")]]),
          ("isError", JVal.bool true)])]) :=
  ExecuteTool_backend_failure_is_soft
    (fixedLib (envelope (JVal.num 7) "tools/call")
      { Name := "gemini_query", Arguments := [("prompt", JVal.str "hi")] })
    (NewServer (clientOver (failing "quota")))
    ((NewServer (clientOver (failing "quota"))).toolHandler.GetTools.get ⟨0, by decide⟩)
    (List.get_mem _ _ _) [("prompt", JVal.str "hi")]
    { model := "gemini-3-pro-preview", text := "hi",
      config := { Temperature := 0.7, TopP := 0.95, MaxOutputTokens := 8192,
                  ThinkingConfig := some { IncludeThoughts := false } } }
    "failed to generate content: quota" rfl (List.mem_singleton.mpr rfl) rfl
    postRequest (envelope (JVal.num 7) "tools/call") rfl rfl rfl rfl

/-- C3. For a tool name that is none of the three registered names, `ExecuteTool`
returns a fault and no result, with the message `"unknown tool: "` followed by the
name, whatever the arguments. -/
theorem ExecuteTool_unknown_tool (u : String → Except String JVal) (h : ToolHandler)
    (toolName : String) (args : JMap) (h1 : toolName ≠ "gemini_query")
    (h2 : toolName ≠ "gemini_query_with_search") (h3 : toolName ≠ "gemini_code_review") :
    (h.ExecuteTool u toolName args).1 = .error ("unknown tool: " ++ toolName) := by
  unfold ToolHandler.ExecuteTool
  rw [if_neg h1, if_neg h2, if_neg h3]

/-- C3 on the name "gemini_review" with a prompt argument. -/
theorem ExecuteTool_unknown_tool_witness :
    ((NewToolHandler (clientOver (answering "ok"))).ExecuteTool (fun _ => .ok JVal.null)
      "gemini_review" [("prompt", JVal.str "hi")]).1 = .error "unknown tool: gemini_review" :=
  ExecuteTool_unknown_tool (fun _ => .ok JVal.null) (NewToolHandler (clientOver (answering "ok")))
    "gemini_review" [("prompt", JVal.str "hi")] (by decide) (by decide) (by decide)

/-! ## C4 to C6: faults and unknown methods at the router -/

/-- C4. A `tools/call` request whose dispatch ends in a fault with message `m` is
answered with the error envelope holding the code -32603, the message `m` and the
request's id, which has no `result` member; so are parameters that do not decode,
with the message "invalid params: " followed by the decoder's error; and a call of
`gemini_query` whose arguments bind no `prompt` is answered with that envelope and
the message "prompt must be a string", whatever the backend. -/
theorem ServeHTTP_call_fault (J : JsonLib) (s : Server) (r : HttpRequest)
    (req : JsonRpcRequest) (hm : r.Method = "POST") (hd : J.decodeRequest r.Body = .ok req)
    (hc : req.Method = "tools/call") :
    (∀ m, (s.handleCallTool J req.Params).1 = .error m →
      (s.ServeHTTP J r).response.Body = ResponseBody.json (JVal.obj
        [("jsonrpc", JVal.str "2.0"), ("id", req.ID),
         ("error", JVal.obj [("code", JVal.num (-32603)), ("message", JVal.str m)])]) ∧
      ((s.ServeHTTP J r).response.jsonBody.map fun v => v.hasKey "result") = some false) ∧
    (∀ err, J.unmarshalParams req.Params = .error err →
      (s.ServeHTTP J r).response.Body = ResponseBody.json (JVal.obj
        [("jsonrpc", JVal.str "2.0"), ("id", req.ID),
         ("error", JVal.obj [("code", JVal.num (-32603)),
            ("message", JVal.str ("invalid params: " ++ err))])])) ∧
    (∀ args : JMap, args.lookup "prompt" = none →
      J.unmarshalParams req.Params = .ok { Name := "gemini_query", Arguments := args } →
      (s.ServeHTTP J r).response.Body = ResponseBody.json (JVal.obj
        [("jsonrpc", JVal.str "2.0"), ("id", req.ID),
         ("error", JVal.obj [("code", JVal.num (-32603)),
            ("message", JVal.str "prompt must be a string")])])) := by
  have main : ∀ m, (s.handleCallTool J req.Params).1 = .error m →
      (s.ServeHTTP J r).response.Body = ResponseBody.json (JVal.obj
        [("jsonrpc", JVal.str "2.0"), ("id", req.ID),
         ("error", JVal.obj [("code", JVal.num (-32603)), ("message", JVal.str m)])]) := by
    intro m hf
    rw [ServeHTTP_call J s r req hm hd hc]
    simp only [hf]
    rfl
  refine ⟨fun m hf => ⟨main m hf, ?_⟩, ?_, ?_⟩
  · simp only [HttpResponse.jsonBody, main m hf]
    rfl
  · intro err hp
    apply main
    rw [handleCallTool_bad J s req.Params err hp]
  · intro args ha hp
    apply main
    rw [handleCallTool_ok J s req.Params _ hp]
    simp only [ExecuteTool_query, executeGeminiQuery_eq, ha, asString]

/-- C4 on a `gemini_query` call without arguments, over a service that would answer. -/
theorem ServeHTTP_call_fault_witness :
    (∀ m, ((NewServer (clientOver (answering "ok"))).handleCallTool
        (fixedLib (envelope (JVal.str "a") "tools/call") { Name := "gemini_query", Arguments := [] })
        (envelope (JVal.str "a") "tools/call").Params).1 = .error m →
      ((NewServer (clientOver (answering "ok"))).ServeHTTP
        (fixedLib (envelope (JVal.str "a") "tools/call") { Name := "gemini_query", Arguments := [] })
        postRequest).response.Body = ResponseBody.json (JVal.obj
        [("jsonrpc", JVal.str "2.0"), ("id", (envelope (JVal.str "a") "tools/call").ID),
         ("error", JVal.obj [("code", JVal.num (-32603)), ("message", JVal.str m)])]) ∧
      (((NewServer (clientOver (answering "ok"))).ServeHTTP
        (fixedLib (envelope (JVal.str "a") "tools/call") { Name := "gemini_query", Arguments := [] })
        postRequest).response.jsonBody.map fun v => v.hasKey "result") = some false) ∧
    (∀ err, (fixedLib (envelope (JVal.str "a") "tools/call")
          { Name := "gemini_query", Arguments := [] }).unmarshalParams
        (envelope (JVal.str "a") "tools/call").Params = .error err →
      ((NewServer (clientOver (answering "ok"))).ServeHTTP
        (fixedLib (envelope (JVal.str "a") "tools/call") { Name := "gemini_query", Arguments := [] })
        postRequest).response.Body = ResponseBody.json (JVal.obj
        [("jsonrpc", JVal.str "2.0"), ("id", (envelope (JVal.str "a") "tools/call").ID),
         ("error", JVal.obj [("code", JVal.num (-32603)),
            ("message", JVal.str ("invalid params: " ++ err))])])) ∧
    (∀ args : JMap, args.lookup "prompt" = none →
      (fixedLib (envelope (JVal.str "a") "tools/call")
          { Name := "gemini_query", Arguments := [] }).unmarshalParams
        (envelope (JVal.str "a") "tools/call").Params
          = .ok { Name := "gemini_query", Arguments := args } →
      ((NewServer (clientOver (answering "ok"))).ServeHTTP
        (fixedLib (envelope (JVal.str "a") "tools/call") { Name := "gemini_query", Arguments := [] })
        postRequest).response.Body = ResponseBody.json (JVal.obj
        [("jsonrpc", JVal.str "2.0"), ("id", (envelope (JVal.str "a") "tools/call").ID),
         ("error", JVal.obj [("code", JVal.num (-32603)),
            ("message", JVal.str "prompt must be a string")])])) :=
  ServeHTTP_call_fault
    (fixedLib (envelope (JVal.str "a") "tools/call") { Name := "gemini_query", Arguments := [] })
    (NewServer (clientOver (answering "ok"))) postRequest (envelope (JVal.str "a") "tools/call")
    rfl rfl rfl

/-- C5, as stated, fails: a `tools/call` request naming the tool "nonexistent" is
answered with the error code -32603, not -32601. -/
theorem nonexistent_tool_code_is_not_32601 :
    ((NewServer (clientOver (answering "ok"))).ServeHTTP
        (fixedLib (envelope (JVal.num 1) "tools/call") { Name := "nonexistent", Arguments := [] })
        postRequest).response.jsonBody.bind JVal.errorCode = some (-32603) ∧
    ((NewServer (clientOver (answering "ok"))).ServeHTTP
        (fixedLib (envelope (JVal.num 1) "tools/call") { Name := "nonexistent", Arguments := [] })
        postRequest).response.jsonBody.bind JVal.errorCode ≠ some (-32601) := by
  constructor <;> decide

/-- C5, amended. A `tools/call` request naming the unknown tool "nonexistent", with
any arguments, is answered with the error envelope whose code is -32603 and whose
message is "unknown tool: nonexistent". -/
theorem ServeHTTP_nonexistent_tool (J : JsonLib) (s : Server) (r : HttpRequest)
    (req : JsonRpcRequest) (args : JMap) (hm : r.Method = "POST")
    (hd : J.decodeRequest r.Body = .ok req) (hc : req.Method = "tools/call")
    (hp : J.unmarshalParams req.Params = .ok { Name := "nonexistent", Arguments := args }) :
    (s.ServeHTTP J r).response.Body = ResponseBody.json (JVal.obj
      [("jsonrpc", JVal.str "2.0"), ("id", req.ID),
       ("error", JVal.obj [("code", JVal.num (-32603)),
          ("message", JVal.str "unknown tool: nonexistent")])]) := by
  rw [ServeHTTP_call J s r req hm hd hc, handleCallTool_ok J s req.Params _ hp]
  have hx : (s.toolHandler.ExecuteTool J.unmarshalValue "nonexistent" args).1 =
      .error ("unknown tool: " ++ "nonexistent") := by
    unfold ToolHandler.ExecuteTool
    rw [if_neg (by decide), if_neg (by decide), if_neg (by decide)]
  simp only [hx]
  rfl

/-- C5, amended, on a call of "nonexistent" with a prompt argument. -/
theorem ServeHTTP_nonexistent_tool_witness :
    ((NewServer (clientOver (failing "quota"))).ServeHTTP
        (fixedLib (envelope (JVal.str "r1") "tools/call")
          { Name := "nonexistent", Arguments := [("prompt", JVal.str "hi")] })
        postRequest).response.Body = ResponseBody.json (JVal.obj
      [("jsonrpc", JVal.str "2.0"), ("id", JVal.str "r1"),
       ("error", JVal.obj [("code", JVal.num (-32603)),
          ("message", JVal.str "unknown tool: nonexistent")])]) :=
  ServeHTTP_nonexistent_tool
    (fixedLib (envelope (JVal.str "r1") "tools/call")
      { Name := "nonexistent", Arguments := [("prompt", JVal.str "hi")] })
    (NewServer (clientOver (failing "quota"))) postRequest (envelope (JVal.str "r1") "tools/call")
    [("prompt", JVal.str "hi")] rfl rfl rfl rfl

/-- C6. A POST request whose body decodes and whose method is none of "initialize",
"notifications/initialized", "tools/list" and "tools/call" is answered with the error
envelope holding the code -32601, the message "Method not found: " followed by the
method, and the request's id; no tool call is dispatched and the backend is not
called. -/
theorem ServeHTTP_unknown_method (J : JsonLib) (s : Server) (r : HttpRequest)
    (req : JsonRpcRequest) (hm : r.Method = "POST") (hd : J.decodeRequest r.Body = .ok req)
    (h1 : req.Method ≠ "initialize") (h2 : req.Method ≠ "notifications/initialized")
    (h3 : req.Method ≠ "tools/list") (h4 : req.Method ≠ "tools/call") :
    (s.ServeHTTP J r).response.Body = ResponseBody.json (JVal.obj
      [("jsonrpc", JVal.str "2.0"), ("id", req.ID),
       ("error", JVal.obj [("code", JVal.num (-32601)),
          ("message", JVal.str ("Method not found: " ++ req.Method))])]) ∧
    (s.ServeHTTP J r).dispatched = [] ∧ (s.ServeHTTP J r).generated = [] := by
  rw [ServeHTTP_post J s r req hm hd, if_neg h1, if_neg h2, if_neg h3, if_neg h4]
  exact ⟨rfl, rfl, rfl⟩

/-- C6 on the method "resources/list". -/
theorem ServeHTTP_unknown_method_witness :
    ((NewServer (clientOver (answering "ok"))).ServeHTTP
        (fixedLib (envelope (JVal.num 3) "resources/list") { Name := "gemini_query", Arguments := [] })
        postRequest).response.Body = ResponseBody.json (JVal.obj
      [("jsonrpc", JVal.str "2.0"), ("id", JVal.num 3),
       ("error", JVal.obj [("code", JVal.num (-32601)),
          ("message", JVal.str "Method not found: resources/list")])]) ∧
    ((NewServer (clientOver (answering "ok"))).ServeHTTP
        (fixedLib (envelope (JVal.num 3) "resources/list") { Name := "gemini_query", Arguments := [] })
        postRequest).dispatched = [] ∧
    ((NewServer (clientOver (answering "ok"))).ServeHTTP
        (fixedLib (envelope (JVal.num 3) "resources/list") { Name := "gemini_query", Arguments := [] })
        postRequest).generated = [] :=
  ServeHTTP_unknown_method
    (fixedLib (envelope (JVal.num 3) "resources/list") { Name := "gemini_query", Arguments := [] })
    (NewServer (clientOver (answering "ok"))) postRequest (envelope (JVal.num 3) "resources/list")
    rfl rfl (by decide) (by decide) (by decide) (by decide)


/-! ## C7: a successful backend call -/

/-- C7. For a registered tool whose arguments pass validation, when the backend call
it makes succeeds with the text `text`, `ExecuteTool` returns no fault and the result
with `IsError` unset and the single text block holding `text` unchanged; and the
outcome is the same whatever the JSON library makes of the text, so for
`gemini_code_review` it holds both when the text is valid JSON and when it is not. -/
theorem ExecuteTool_backend_success (u : String → Except String JVal) (h : ToolHandler)
    (t : Tool) (ht : t ∈ h.GetTools) (args : JMap) (call : GenCall) (text : String)
    (hvalid : isFault (h.ExecuteTool u t.Name args).1 = false)
    (hcall : call ∈ (h.ExecuteTool u t.Name args).2)
    (hok : extractText (h.vertexClient.genaiClient call) = .ok text) :
    (h.ExecuteTool u t.Name args).1 =
        .ok { Content := [ { Type_ := "text", Text := text } ], IsError := false } ∧
    ∀ u0 : String → Except String JVal,
      (h.ExecuteTool u0 t.Name args).1 =
        .ok { Content := [ { Type_ := "text", Text := text } ], IsError := false } := by
  have hres : (h.ExecuteTool u t.Name args).1 =
      .ok { Content := [ { Type_ := "text", Text := text } ], IsError := false } := by
    rcases ExecuteTool_registered u h t ht args with ⟨_, m, hm⟩ | ⟨_, call0, hc⟩
    · rw [hm] at hvalid
      simp [isFault] at hvalid
    · rw [hc] at hcall ⊢
      have hcc : call = call0 := by simpa [shaped] using hcall
      subst hcc
      simp only [shaped, hok]
      rfl
  exact ⟨hres, fun u0 => by rw [ExecuteTool_unmarshal_irrelevant u0 u]; exact hres⟩

/-- C7 on `gemini_code_review` over a service that answers "no issues found", with a
JSON library that rejects the text and one that accepts it. -/
theorem ExecuteTool_backend_success_witness :
    ((NewToolHandler (clientOver (answering "no issues found"))).ExecuteTool
        (fun _ => .error "invalid character") "gemini_code_review"
        [("code", JVal.str "x=1"), ("language", JVal.str "python")]).1 =
      .ok { Content := [ { Type_ := "text", Text := "no issues found" } ], IsError := false } ∧
    ∀ u0 : String → Except String JVal,
      ((NewToolHandler (clientOver (answering "no issues found"))).ExecuteTool u0
        "gemini_code_review" [("code", JVal.str "x=1"), ("language", JVal.str "python")]).1 =
      .ok { Content := [ { Type_ := "text", Text := "no issues found" } ], IsError := false } :=
  ExecuteTool_backend_success (fun _ => .error "invalid character")
    (NewToolHandler (clientOver (answering "no issues found")))
    ((NewToolHandler (clientOver (answering "no issues found"))).GetTools.get ⟨2, by decide⟩)
    (List.get_mem _ _ _) [("code", JVal.str "x=1"), ("language", JVal.str "python")]
    { model := "gemini-3-pro-preview", text := reviewPrompt "python" "x=1" "",
      config := { Temperature := 0.7, TopP := 0.95, MaxOutputTokens := 8192,
                  ThinkingConfig := some { IncludeThoughts := false } } }
    "no issues found" rfl (List.mem_singleton.mpr rfl) rfl

/-! ## C8 to C10: the envelopes written, and requests that get none -/

/-- The shapes of the body `ServeHTTP` writes: nothing, a plain text, a success
envelope whose result is an object, or an error envelope. -/
theorem ServeHTTP_body_shapes (J : JsonLib) (s : Server) (r : HttpRequest) :
    (s.ServeHTTP J r).response.Body = ResponseBody.empty ∨
    (∃ t, (s.ServeHTTP J r).response.Body = ResponseBody.text t) ∨
    (∃ id kvs, (s.ServeHTTP J r).response.Body = ResponseBody.json (JVal.obj
      [("jsonrpc", JVal.str "2.0"), ("id", id), ("result", JVal.obj kvs)])) ∨
    (∃ (id : JVal) (code : Int) (message : String),
      (s.ServeHTTP J r).response.Body = ResponseBody.json (JVal.obj
        [("jsonrpc", JVal.str "2.0"), ("id", id),
         ("error", JVal.obj [("code", JVal.num code), ("message", JVal.str message)])])) := by
  by_cases ho : r.Method = "OPTIONS"
  · left
    unfold Server.ServeHTTP
    rw [if_pos ho]
  by_cases hm : r.Method = "POST"
  swap
  · right; left
    unfold Server.ServeHTTP
    rw [if_neg ho, if_pos hm]
    exact ⟨_, rfl⟩
  cases hd : J.decodeRequest r.Body with
  | error err =>
    right; left
    unfold Server.ServeHTTP
    rw [if_neg ho, if_neg (not_not.mpr hm)]
    simp only [hd]
    exact ⟨_, rfl⟩
  | ok req =>
    rw [ServeHTTP_post J s r req hm hd]
    by_cases h1 : req.Method = "initialize"
    · rw [if_pos h1]
      right; right; left
      exact ⟨_, _, rfl⟩
    by_cases h2 : req.Method = "notifications/initialized"
    · rw [if_neg h1, if_pos h2]
      left
      rfl
    by_cases h3 : req.Method = "tools/list"
    · rw [if_neg h1, if_neg h2, if_pos h3]
      right; right; left
      exact ⟨_, _, rfl⟩
    by_cases h4 : req.Method = "tools/call"
    · rw [if_neg h1, if_neg h2, if_neg h3, if_pos h4]
      rcases s.handleCallTool J req.Params with ⟨res | e | _, d, g⟩
      · right; right; left
        exact ⟨_, _, rfl⟩
      · right; right; right
        exact ⟨_, -32603, _, rfl⟩
      · left
        rfl
    · rw [if_neg h1, if_neg h2, if_neg h3, if_neg h4]
      right; right; right
      exact ⟨_, -32601, _, rfl⟩

/-- Every routed method but the notification, when the handler does not panic, gets an
envelope carrying the request's id: a success envelope whose result is an object, or an
error envelope. -/
theorem ServeHTTP_routed_body (J : JsonLib) (s : Server) (r : HttpRequest)
    (req : JsonRpcRequest) (hm : r.Method = "POST") (hd : J.decodeRequest r.Body = .ok req)
    (hn : req.Method ≠ "notifications/initialized")
    (hp : (s.ServeHTTP J r).panicked = false) :
    (∃ kvs, (s.ServeHTTP J r).response.Body = ResponseBody.json (JVal.obj
      [("jsonrpc", JVal.str "2.0"), ("id", req.ID), ("result", JVal.obj kvs)])) ∨
    (∃ (code : Int) (message : String),
      (s.ServeHTTP J r).response.Body = ResponseBody.json (JVal.obj
        [("jsonrpc", JVal.str "2.0"), ("id", req.ID),
         ("error", JVal.obj [("code", JVal.num code), ("message", JVal.str message)])])) := by
  revert hp
  rw [ServeHTTP_post J s r req hm hd, if_neg hn]
  by_cases h1 : req.Method = "initialize"
  · rw [if_pos h1]
    exact fun _ => Or.inl ⟨_, rfl⟩
  by_cases h3 : req.Method = "tools/list"
  · rw [if_neg h1, if_pos h3]
    exact fun _ => Or.inl ⟨_, rfl⟩
  by_cases h4 : req.Method = "tools/call"
  · rw [if_neg h1, if_neg h3, if_pos h4]
    rcases s.handleCallTool J req.Params with ⟨res | e | _, d, g⟩
    · exact fun _ => Or.inl ⟨_, rfl⟩
    · exact fun _ => Or.inr ⟨-32603, _, rfl⟩
    · intro hp
      cases hp
  · rw [if_neg h1, if_neg h3, if_neg h4]
    exact fun _ => Or.inr ⟨-32601, _, rfl⟩

/-- The handler panics only in a `tools/call`, when the tool execution panics; it has
then written no body. -/
theorem ServeHTTP_panicked (J : JsonLib) (s : Server) (r : HttpRequest)
    (hp : (s.ServeHTTP J r).panicked = true) :
    (s.ServeHTTP J r).response.Body = ResponseBody.empty ∧
    ∃ req, r.Method = "POST" ∧ J.decodeRequest r.Body = .ok req ∧
      req.Method = "tools/call" ∧ (s.handleCallTool J req.Params).1 = .panic := by
  revert hp
  by_cases ho : r.Method = "OPTIONS"
  · unfold Server.ServeHTTP
    rw [if_pos ho]
    intro hp
    cases hp
  by_cases hm : r.Method = "POST"
  swap
  · unfold Server.ServeHTTP
    rw [if_neg ho, if_pos hm]
    intro hp
    cases hp
  cases hd : J.decodeRequest r.Body with
  | error err =>
    unfold Server.ServeHTTP
    rw [if_neg ho, if_neg (not_not.mpr hm)]
    simp only [hd]
    intro hp
    cases hp
  | ok req =>
    rw [ServeHTTP_post J s r req hm hd]
    by_cases h1 : req.Method = "initialize"
    · rw [if_pos h1]
      intro hp
      cases hp
    by_cases h2 : req.Method = "notifications/initialized"
    · rw [if_neg h1, if_pos h2]
      intro hp
      cases hp
    by_cases h3 : req.Method = "tools/list"
    · rw [if_neg h1, if_neg h2, if_pos h3]
      intro hp
      cases hp
    by_cases h4 : req.Method = "tools/call"
    · rw [if_neg h1, if_neg h2, if_neg h3, if_pos h4]
      rcases hx : s.handleCallTool J req.Params with ⟨res | e | _, d, g⟩
      · intro hp
        cases hp
      · intro hp
        cases hp
      · intro _
        exact ⟨rfl, req, hm, rfl, h4, by rw [hx]⟩
    · rw [if_neg h1, if_neg h2, if_neg h3, if_neg h4]
      intro hp
      cases hp

/-- Every JSON body written is a well-formed response. -/
theorem ServeHTTP_json_isResponse (J : JsonLib) (s : Server) (r : HttpRequest) (v : JVal)
    (hv : (s.ServeHTTP J r).response.Body = ResponseBody.json v) : v.isResponse := by
  rcases ServeHTTP_body_shapes J s r with h | ⟨t, h⟩ | ⟨id, res, h⟩ | ⟨id, c, m, h⟩
  · rw [h] at hv; cases hv
  · rw [h] at hv; cases hv
  · rw [h] at hv
    cases hv
    exact ⟨rfl, rfl⟩
  · rw [h] at hv
    cases hv
    exact ⟨rfl, rfl⟩

/-- A success envelope whose result is an object decodes with `result` populated and
`error` not. -/
theorem decodeResponse_success (id : JVal) (kvs : List (String × JVal)) :
    decodeResponse (JVal.obj [("jsonrpc", JVal.str "2.0"), ("id", id),
        ("result", JVal.obj kvs)]) =
      some { jsonrpc := "2.0", id := id, result := some (JVal.obj kvs), error := none } :=
  rfl

/-- An error envelope decodes with `error` populated and `result` not. -/
theorem decodeResponse_error (id : JVal) (code : Int) (message : String) :
    decodeResponse (JVal.obj [("jsonrpc", JVal.str "2.0"), ("id", id),
        ("error", JVal.obj [("code", JVal.num code), ("message", JVal.str message)])]) =
      some { jsonrpc := "2.0", id := id, result := none,
             error := some { code := code, message := message } } :=
  rfl

/-- C8. Every JSON body the router writes is an object with `jsonrpc` equal to "2.0"
and exactly one of the members `result` and `error`, and it decodes into a response of
the data model with exactly one of `result` and `error` populated: the member written
is an object, never null.  Every POST request that decodes, the notification apart,
gets such a body carrying its id, unless the handler panics; a handler that panics has
written no body at all, and does so only in a `tools/call`. -/
theorem ServeHTTP_body_is_response (J : JsonLib) (s : Server) (r : HttpRequest) :
    (∀ v, (s.ServeHTTP J r).response.Body = ResponseBody.json v →
      v.isResponse ∧
      ∃ resp, decodeResponse v = some resp ∧ resp.jsonrpc = "2.0" ∧
        resp.result.isSome = !resp.error.isSome) ∧
    (∀ req, r.Method = "POST" → J.decodeRequest r.Body = .ok req →
      req.Method ≠ "notifications/initialized" → (s.ServeHTTP J r).panicked = false →
      ∃ v, (s.ServeHTTP J r).response.Body = ResponseBody.json v ∧ v.isResponse ∧
        ∃ resp, decodeResponse v = some resp ∧ resp.id = req.ID ∧
          resp.result.isSome = !resp.error.isSome) ∧
    ((s.ServeHTTP J r).panicked = true →
      (s.ServeHTTP J r).response.Body = ResponseBody.empty ∧
      ∃ req, J.decodeRequest r.Body = .ok req ∧ req.Method = "tools/call") := by
  refine ⟨?_, ?_, ?_⟩
  · intro v hv
    refine ⟨ServeHTTP_json_isResponse J s r v hv, ?_⟩
    rcases ServeHTTP_body_shapes J s r with h | ⟨t, h⟩ | ⟨id, kvs, h⟩ | ⟨id, c, m, h⟩
    · rw [h] at hv; cases hv
    · rw [h] at hv; cases hv
    · rw [h] at hv
      cases hv
      exact ⟨_, decodeResponse_success id kvs, rfl, rfl⟩
    · rw [h] at hv
      cases hv
      exact ⟨_, decodeResponse_error id c m, rfl, rfl⟩
  · intro req hm hd hn hp
    rcases ServeHTTP_routed_body J s r req hm hd hn hp with ⟨kvs, h⟩ | ⟨c, m, h⟩
    · exact ⟨_, h, ServeHTTP_json_isResponse J s r _ h, _,
        decodeResponse_success req.ID kvs, rfl, rfl⟩
    · exact ⟨_, h, ServeHTTP_json_isResponse J s r _ h, _,
        decodeResponse_error req.ID c m, rfl, rfl⟩
  · intro hp
    obtain ⟨hb, req, _, hd, hc, _⟩ := ServeHTTP_panicked J s r hp
    exact ⟨hb, req, hd, hc⟩

/-- C8 on a `gemini_query` call over a backend that fails: the body decodes with
`result` populated. -/
theorem ServeHTTP_body_is_response_witness :
    ∃ v, ((NewServer (clientOver (failing "quota"))).ServeHTTP
        (fixedLib (envelope (JVal.num 2) "tools/call")
          { Name := "gemini_query", Arguments := [("prompt", JVal.str "hi")] })
        postRequest).response.Body = ResponseBody.json v ∧ v.isResponse ∧
      ∃ resp, decodeResponse v = some resp ∧ resp.id = JVal.num 2 ∧
        resp.result.isSome = !resp.error.isSome :=
  (ServeHTTP_body_is_response
    (fixedLib (envelope (JVal.num 2) "tools/call")
      { Name := "gemini_query", Arguments := [("prompt", JVal.str "hi")] })
    (NewServer (clientOver (failing "quota"))) postRequest).2.1
    (envelope (JVal.num 2) "tools/call") rfl rfl (by decide) rfl

/-- C9, as stated, fails: an "initialize" request without an `id` member is answered
with a JSON-RPC response, whose `id` is null. -/
theorem initialize_without_id_is_answered :
    (envelope JVal.null "initialize").ID = JVal.null ∧
    ((NewServer (clientOver (answering "ok"))).ServeHTTP
        (fixedLib (envelope JVal.null "initialize") { Name := "", Arguments := [] })
        postRequest).response.Body = ResponseBody.json (JVal.obj
      [("jsonrpc", JVal.str "2.0"), ("id", JVal.null),
       ("result", JVal.obj [("protocolVersion", JVal.str "2025-06-18"),
          ("capabilities", JVal.obj [("tools", JVal.obj [])]),
          ("serverInfo", JVal.obj [("name", JVal.str "vertex-mcp-server"),
            ("version", JVal.str "1.0.0")])])]) :=
  ⟨rfl, rfl⟩

/-- C9, amended. A POST request whose `id` member is absent gets no JSON-RPC response
when its method is "notifications/initialized"; for every other method, when the
handler does not panic, it gets one JSON-RPC response, whose `id` is null.  The
handler does not panic for any method other than "tools/call". -/
theorem ServeHTTP_without_id (J : JsonLib) (s : Server) (r : HttpRequest)
    (req : JsonRpcRequest) (hm : r.Method = "POST") (hd : J.decodeRequest r.Body = .ok req)
    (hid : req.ID = JVal.null) :
    (req.Method = "notifications/initialized" →
      (s.ServeHTTP J r).response.Body = ResponseBody.empty) ∧
    (req.Method ≠ "notifications/initialized" → (s.ServeHTTP J r).panicked = false →
      ∃ v, (s.ServeHTTP J r).response.Body = ResponseBody.json v ∧ v.isResponse ∧
        v.field "id" = some JVal.null) ∧
    (req.Method ≠ "tools/call" → (s.ServeHTTP J r).panicked = false) := by
  refine ⟨?_, ?_, ?_⟩
  · intro hn
    rw [ServeHTTP_post J s r req hm hd, hn]
    rfl
  · intro hn hp
    rcases ServeHTTP_routed_body J s r req hm hd hn hp with ⟨kvs, h⟩ | ⟨c, m, h⟩
    · exact ⟨_, h, ServeHTTP_json_isResponse J s r _ h, by rw [hid]; rfl⟩
    · exact ⟨_, h, ServeHTTP_json_isResponse J s r _ h, by rw [hid]; rfl⟩
  · intro hc
    cases hpan : (s.ServeHTTP J r).panicked with
    | false => rfl
    | true =>
      obtain ⟨_, req0, _, hd0, hc0, _⟩ := ServeHTTP_panicked J s r hpan
      rw [hd] at hd0
      cases hd0
      exact absurd hc0 hc

/-- C9, amended, on a `tools/list` request without an `id` member. -/
theorem ServeHTTP_without_id_witness :
    ∃ v, ((NewServer (clientOver (answering "ok"))).ServeHTTP
        (fixedLib (envelope JVal.null "tools/list") { Name := "", Arguments := [] })
        postRequest).response.Body = ResponseBody.json v ∧ v.isResponse ∧
        v.field "id" = some JVal.null :=
  (ServeHTTP_without_id
    (fixedLib (envelope JVal.null "tools/list") { Name := "", Arguments := [] })
    (NewServer (clientOver (answering "ok"))) postRequest (envelope JVal.null "tools/list")
    rfl rfl rfl).2.1 (by decide) rfl

/-- A `tools/call` whose backend answers a candidate without content panics: one call
is made to the backend, nothing is written and the client gets no response. -/
theorem ServeHTTP_contentless_candidate :
    ((NewServer (clientOver contentless)).ServeHTTP
        (fixedLib (envelope JVal.null "tools/call")
          { Name := "gemini_query", Arguments := [("prompt", JVal.str "hi")] })
        postRequest).panicked = true ∧
    ((NewServer (clientOver contentless)).ServeHTTP
        (fixedLib (envelope JVal.null "tools/call")
          { Name := "gemini_query", Arguments := [("prompt", JVal.str "hi")] })
        postRequest).response.Body = ResponseBody.empty ∧
    ((NewServer (clientOver contentless)).ServeHTTP
        (fixedLib (envelope JVal.null "tools/call")
          { Name := "gemini_query", Arguments := [("prompt", JVal.str "hi")] })
        postRequest).generated.length = 1 :=
  ⟨rfl, rfl, rfl⟩

/-- C10. A POST request whose method is "notifications/initialized" is answered with
the status 204 and no body, whatever its id and parameters; no tool call is
dispatched and the backend is not called. -/
theorem ServeHTTP_notification (J : JsonLib) (s : Server) (r : HttpRequest)
    (req : JsonRpcRequest) (hm : r.Method = "POST") (hd : J.decodeRequest r.Body = .ok req)
    (hn : req.Method = "notifications/initialized") :
    (s.ServeHTTP J r).response.Body = ResponseBody.empty ∧
    (s.ServeHTTP J r).response.Status = 204 ∧
    (s.ServeHTTP J r).dispatched = [] ∧ (s.ServeHTTP J r).generated = [] := by
  rw [ServeHTTP_post J s r req hm hd, hn]
  exact ⟨rfl, rfl, rfl, rfl⟩

/-- C10 on a notification that carries a string id and raw parameters. -/
theorem ServeHTTP_notification_witness :
    ((NewServer (clientOver (failing "quota"))).ServeHTTP
        (fixedLib { JSONRPC := "2.0", ID := JVal.str "n-1",
                    Method := "notifications/initialized", Params := [123, 125] }
          { Name := "gemini_query", Arguments := [("prompt", JVal.str "hi")] })
        postRequest).response.Body = ResponseBody.empty ∧
    ((NewServer (clientOver (failing "quota"))).ServeHTTP
        (fixedLib { JSONRPC := "2.0", ID := JVal.str "n-1",
                    Method := "notifications/initialized", Params := [123, 125] }
          { Name := "gemini_query", Arguments := [("prompt", JVal.str "hi")] })
        postRequest).response.Status = 204 ∧
    ((NewServer (clientOver (failing "quota"))).ServeHTTP
        (fixedLib { JSONRPC := "2.0", ID := JVal.str "n-1",
                    Method := "notifications/initialized", Params := [123, 125] }
          { Name := "gemini_query", Arguments := [("prompt", JVal.str "hi")] })
        postRequest).dispatched = [] ∧
    ((NewServer (clientOver (failing "quota"))).ServeHTTP
        (fixedLib { JSONRPC := "2.0", ID := JVal.str "n-1",
                    Method := "notifications/initialized", Params := [123, 125] }
          { Name := "gemini_query", Arguments := [("prompt", JVal.str "hi")] })
        postRequest).generated = [] :=
  ServeHTTP_notification
    (fixedLib { JSONRPC := "2.0", ID := JVal.str "n-1",
                Method := "notifications/initialized", Params := [123, 125] }
      { Name := "gemini_query", Arguments := [("prompt", JVal.str "hi")] })
    (NewServer (clientOver (failing "quota"))) postRequest
    { JSONRPC := "2.0", ID := JVal.str "n-1",
      Method := "notifications/initialized", Params := [123, 125] }
    rfl rfl rfl

/-! ## C11: the registry and `tools/list` -/

/-- C11. A `tools/list` request is answered with the success envelope whose result is
the object with the one member `tools`: the array of exactly three descriptors named
`gemini_query`, `gemini_query_with_search` and `gemini_code_review`, in this order,
each with its description and input schema, whose required lists are `["prompt"]`,
`["prompt"]` and `["code", "language"]`.  The names are pairwise distinct, and the
registry is the same list for every handler, so on every call; nothing is dispatched
and the backend is not called. -/
theorem tools_list_is_the_registry (J : JsonLib) (s : Server) (r : HttpRequest)
    (req : JsonRpcRequest) (hm : r.Method = "POST") (hd : J.decodeRequest r.Body = .ok req)
    (hl : req.Method = "tools/list") :
    (s.ServeHTTP J r).response.Body = ResponseBody.json (JVal.obj
      [("jsonrpc", JVal.str "2.0"), ("id", req.ID),
       ("result", JVal.obj [("tools", JVal.arr
        [ JVal.obj
            [ ("name", JVal.str "gemini_query"),
              ("description", JVal.str "Query Google\x27s Gemini AI model with any prompt. Best for general questions, coding assistance, explanations, and creative tasks."),
              ("inputSchema", JVal.obj
                [ ("type", JVal.str "object"),
                  ("properties", JVal.obj
                    [ ("prompt", JVal.obj
                        [ ("type", JVal.str "string"),
                          ("description", JVal.str "The prompt or question to send to Gemini") ]) ]),
                  ("required", JVal.arr [JVal.str "prompt"]) ]) ],
          JVal.obj
            [ ("name", JVal.str "gemini_query_with_search"),
              ("description", JVal.str "Query Google\x27s Gemini AI model optimized for current information. Use this for queries that need real-time or recent data."),
              ("inputSchema", JVal.obj
                [ ("type", JVal.str "object"),
                  ("properties", JVal.obj
                    [ ("prompt", JVal.obj
                        [ ("type", JVal.str "string"),
                          ("description", JVal.str "The prompt or question to send to Gemini") ]) ]),
                  ("required", JVal.arr [JVal.str "prompt"]) ]) ],
          JVal.obj
            [ ("name", JVal.str "gemini_code_review"),
              ("description", JVal.str "Have Gemini review code and provide improvement suggestions. Automatically analyzes code quality, potential bugs, best practices, and optimization opportunities."),
              ("inputSchema", JVal.obj
                [ ("type", JVal.str "object"),
                  ("properties", JVal.obj
                    [ ("code", JVal.obj
                        [ ("type", JVal.str "string"),
                          ("description", JVal.str "The code to review") ]),
                      ("language", JVal.obj
                        [ ("type", JVal.str "string"),
                          ("description", JVal.str "Programming language (e.g., \x27go\x27, \x27python\x27, \x27javascript\x27)") ]),
                      ("focus", JVal.obj
                        [ ("type", JVal.str "string"),
                          ("description", JVal.str "Optional: Specific aspects to focus on (e.g., \x27security\x27, \x27performance\x27, \x27readability\x27)") ]) ]),
                  ("required", JVal.arr [JVal.str "code", JVal.str "language"]) ]) ] ])])]) ∧
    s.toolHandler.GetTools.map Tool.Name =
        ["gemini_query", "gemini_query_with_search", "gemini_code_review"] ∧
    (s.toolHandler.GetTools.map Tool.Name).Nodup ∧
    s.toolHandler.GetTools.map (fun t => t.InputSchema.Required) =
        [["prompt"], ["prompt"], ["code", "language"]] ∧
    (∀ h : ToolHandler, h.GetTools = s.toolHandler.GetTools) ∧
    (s.ServeHTTP J r).response.Body = ResponseBody.json (JVal.obj
      [("jsonrpc", JVal.str "2.0"), ("id", req.ID),
       ("result", JVal.obj [("tools", JVal.arr (s.toolHandler.GetTools.map Tool.toJSON))])]) ∧
    (s.ServeHTTP J r).dispatched = [] ∧ (s.ServeHTTP J r).generated = [] := by
  have hrun := ServeHTTP_post J s r req hm hd
  rw [hl] at hrun
  refine ⟨?_, rfl, by simp [ToolHandler.GetTools], rfl, fun _ => rfl, ?_, ?_, ?_⟩ <;>
    rw [hrun] <;> rfl

/-- C11 on a `tools/list` request with the id 5: the names and required lists read
off the body written. -/
theorem tools_list_is_the_registry_witness :
    (((((NewServer (clientOver (failing "quota"))).ServeHTTP
        (fixedLib (envelope (JVal.num 5) "tools/list") { Name := "", Arguments := [] })
        postRequest).response.jsonBody.bind fun v => v.field "result").bind
          fun res => res.field "tools").map fun tools =>
        match tools with
        | JVal.arr ts => ts.map fun t =>
            (t.field "name", (t.field "inputSchema").bind fun i => i.field "required")
        | _ => []) =
      some [ (some (JVal.str "gemini_query"), some (JVal.arr [JVal.str "prompt"])),
             (some (JVal.str "gemini_query_with_search"), some (JVal.arr [JVal.str "prompt"])),
             (some (JVal.str "gemini_code_review"),
                some (JVal.arr [JVal.str "code", JVal.str "language"])) ] := by
  unfold HttpResponse.jsonBody
  rw [(tools_list_is_the_registry
    (fixedLib (envelope (JVal.num 5) "tools/list") { Name := "", Arguments := [] })
    (NewServer (clientOver (failing "quota"))) postRequest (envelope (JVal.num 5) "tools/list")
    rfl rfl rfl).1]
  rfl

/-! ## C12: keys outside the schema -/

/-- Binding a key leaves the reads of every other key unchanged. -/
theorem lookup_cons_other (args : JMap) (k k0 : String) (v : JVal) (hne : k0 ≠ k) :
    List.lookup k0 ((k, v) :: args) = List.lookup k0 args := by
  have hb : (k0 == k) = false := by simpa using hne
  simp only [List.lookup, hb]

/-- C12. For a registered tool, binding a key that is not a property of its input
schema to any value changes nothing of what `ExecuteTool` does: it returns the same
fault or the same result and makes the same calls to the backend, with the same
prompt text. -/
theorem ExecuteTool_ignores_extra_key (u : String → Except String JVal) (h : ToolHandler)
    (t : Tool) (ht : t ∈ h.GetTools) (args : JMap) (k : String) (v : JVal)
    (hk : k ∉ t.InputSchema.Properties.map Prod.fst) :
    h.ExecuteTool u t.Name ((k, v) :: args) = h.ExecuteTool u t.Name args := by
  simp only [ToolHandler.GetTools, List.mem_cons, List.mem_singleton, List.not_mem_nil,
    or_false] at ht
  rcases ht with rfl | rfl | rfl
  · have hp : "prompt" ≠ k := fun e => hk (by simp [← e])
    simp only [ExecuteTool_query, executeGeminiQuery_eq, lookup_cons_other args k _ v hp]
  · have hp : "prompt" ≠ k := fun e => hk (by simp [← e])
    simp only [ExecuteTool_search, executeGeminiQueryWithSearch_eq,
      lookup_cons_other args k _ v hp]
  · have hc : "code" ≠ k := fun e => hk (by simp [← e])
    have hl : "language" ≠ k := fun e => hk (by simp [← e])
    have hf : "focus" ≠ k := fun e => hk (by simp [← e])
    simp only [ExecuteTool_review, executeCodeReview_eq, lookup_cons_other args k _ v hc,
      lookup_cons_other args k _ v hl, lookup_cons_other args k _ v hf]

/-- C12 on `gemini_code_review` with the extra key "style" bound to a number. -/
theorem ExecuteTool_ignores_extra_key_witness :
    (NewToolHandler (clientOver (answering "ok"))).ExecuteTool (fun _ => .ok JVal.null)
        "gemini_code_review"
        (("style", JVal.num 2) :: [("code", JVal.str "x=1"), ("language", JVal.str "go")]) =
      (NewToolHandler (clientOver (answering "ok"))).ExecuteTool (fun _ => .ok JVal.null)
        "gemini_code_review" [("code", JVal.str "x=1"), ("language", JVal.str "go")] :=
  ExecuteTool_ignores_extra_key (fun _ => .ok JVal.null)
    (NewToolHandler (clientOver (answering "ok")))
    ((NewToolHandler (clientOver (answering "ok"))).GetTools.get ⟨2, by decide⟩)
    (List.get_mem _ _ _) [("code", JVal.str "x=1"), ("language", JVal.str "go")]
    "style" (JVal.num 2) (by decide)

/-! ## C13: the two query tools -/

/-- What a validated handler returns, read off the client's outcome. -/
theorem shaped_fst (o : Outcome String) (calls : List GenCall) :
    (shaped (o, calls)).1 =
      match o with
      | .panic => .panic
      | .error err => .ok (errorResult err)
      | .ok response => .ok (textResult response) := by
  cases o <;> rfl

/-- C13. For a string prompt `p`, `gemini_query` sends exactly `p` to the generation
model and `gemini_query_with_search` sends the fixed sentence
"Please provide current, up-to-date information if available. " followed by `p`, each
in one call.  The two tools validate alike: on any arguments they fault together, with
the same message, which is "prompt must be a string".  And they shape results alike:
when their calls have the same outcome, a text or an error, they return the same
result, the text in one block or "Error: " and the error in one block with `IsError`
set; and when their calls panic, so do both. -/
theorem query_with_search_prepends_hint (u : String → Except String JVal) (h : ToolHandler)
    (args : JMap) (p : String) (hp : args.lookup "prompt" = some (JVal.str p)) :
    ((h.ExecuteTool u "gemini_query" args).2.map GenCall.text = [p] ∧
      (h.ExecuteTool u "gemini_query_with_search" args).2.map GenCall.text =
        ["Please provide current, up-to-date information if available. " ++ p]) ∧
    (∀ (args0 : JMap) (m : String),
      ((h.ExecuteTool u "gemini_query" args0).1 = .error m ↔
        (h.ExecuteTool u "gemini_query_with_search" args0).1 = .error m) ∧
      ((h.ExecuteTool u "gemini_query" args0).1 = .error m → m = "prompt must be a string")) ∧
    (∀ (cq cs : GenCall) (o : Outcome String),
      cq ∈ (h.ExecuteTool u "gemini_query" args).2 →
      cs ∈ (h.ExecuteTool u "gemini_query_with_search" args).2 →
      extractText (h.vertexClient.genaiClient cq) = o →
      extractText (h.vertexClient.genaiClient cs) = o →
      (h.ExecuteTool u "gemini_query" args).1 =
        (h.ExecuteTool u "gemini_query_with_search" args).1 ∧
      (h.ExecuteTool u "gemini_query" args).1 =
        match o with
        | .panic => .panic
        | .error err =>
          .ok { Content := [ { Type_ := "text", Text := "Error: " ++ err } ], IsError := true }
        | .ok response =>
          .ok { Content := [ { Type_ := "text", Text := response } ], IsError := false }) := by
  have hs : asString (args.lookup "prompt") = some p := by rw [hp]; rfl
  refine ⟨?_, ?_, ?_⟩
  · simp only [ExecuteTool_query, ExecuteTool_search, executeGeminiQuery_eq,
      executeGeminiQueryWithSearch_eq, hs]
    exact ⟨rfl, rfl⟩
  · intro args0 m
    simp only [ExecuteTool_query, ExecuteTool_search, executeGeminiQuery_eq,
      executeGeminiQueryWithSearch_eq]
    cases asString (args0.lookup "prompt") with
    | none =>
      refine ⟨Iff.rfl, fun hm => ?_⟩
      injection hm with hm
      exact hm.symm
    | some q =>
      have h1 := shaped_ne_error (h.vertexClient.GenerateContent q) m
      have h2 := shaped_ne_error (h.vertexClient.GenerateContentWithWebSearch q) m
      exact ⟨⟨fun e => absurd e h1, fun e => absurd e h2⟩, fun e => absurd e h1⟩
  · intro cq cs o hq hsr hoq hos
    simp only [ExecuteTool_query, ExecuteTool_search, executeGeminiQuery_eq,
      executeGeminiQueryWithSearch_eq, hs, Client.GenerateContent,
      Client.GenerateContentWithWebSearch, shaped_fst] at hq hsr ⊢
    simp only [shaped, List.mem_singleton] at hq hsr
    subst hq
    subst hsr
    rw [hoq, hos]
    refine ⟨rfl, ?_⟩
    cases o <;> rfl

/-- C13 on the prompt "weather in Oslo". -/
theorem query_with_search_prepends_hint_witness :
    ((NewToolHandler (clientOver (answering "ok"))).ExecuteTool (fun _ => .ok JVal.null)
        "gemini_query" [("prompt", JVal.str "weather in Oslo")]).2.map GenCall.text =
      ["weather in Oslo"] ∧
    ((NewToolHandler (clientOver (answering "ok"))).ExecuteTool (fun _ => .ok JVal.null)
        "gemini_query_with_search" [("prompt", JVal.str "weather in Oslo")]).2.map GenCall.text =
      ["Please provide current, up-to-date information if available. weather in Oslo"] :=
  (query_with_search_prepends_hint (fun _ => .ok JVal.null)
    (NewToolHandler (clientOver (answering "ok"))) [("prompt", JVal.str "weather in Oslo")]
    "weather in Oslo" rfl).1

/-! ## C14: the optional `focus` argument -/

/-- C14. For `gemini_code_review` with a string `code` and a string `language`, no
value of `focus` causes a fault.  When `focus` is absent, is bound to a value that is
not a string, or is the empty string, the prompt sent is the code section followed by
the fixed rubric; when it is a non-empty string `f`, the prompt is the same with the
line "Focus specifically on: f" and a blank line inserted between the two. -/
theorem code_review_focus (u : String → Except String JVal) (h : ToolHandler) (args : JMap)
    (c l : String) (hc : args.lookup "code" = some (JVal.str c))
    (hl : args.lookup "language" = some (JVal.str l)) :
    isFault (h.ExecuteTool u "gemini_code_review" args).1 = false ∧
    ((args.lookup "focus" = none ∨
        (∃ v, args.lookup "focus" = some v ∧ ∀ s, v ≠ JVal.str s) ∨
        args.lookup "focus" = some (JVal.str "")) →
      (h.ExecuteTool u "gemini_code_review" args).2.map GenCall.text =
        ["Review the following " ++ l ++ " code and provide detailed feedback.\n\nCode:\n" ++
          c ++ "\n\n" ++ reviewRubric]) ∧
    (∀ f, args.lookup "focus" = some (JVal.str f) → f ≠ "" →
      (h.ExecuteTool u "gemini_code_review" args).2.map GenCall.text =
        ["Review the following " ++ l ++ " code and provide detailed feedback.\n\nCode:\n" ++
          c ++ "\n\n" ++ ("Focus specifically on: " ++ f ++ "\n\n") ++ reviewRubric]) := by
  have hcs : asString (args.lookup "code") = some c := by rw [hc]; rfl
  have hls : asString (args.lookup "language") = some l := by rw [hl]; rfl
  have hrun : h.ExecuteTool u "gemini_code_review" args =
      shaped (h.vertexClient.GenerateContent
        (reviewPrompt l c ((asString (args.lookup "focus")).getD ""))) := by
    simp only [ExecuteTool_review, executeCodeReview_eq, hcs, hls]
  refine ⟨by rw [hrun, isFault_shaped], ?_, ?_⟩
  · intro hf
    have hfocus : (asString (args.lookup "focus")).getD "" = "" := by
      rcases hf with hf | ⟨v, hf, hv⟩ | hf
      · rw [hf]; rfl
      · have hn : asString (args.lookup "focus") = none :=
          (asString_eq_none_iff _).mpr (Or.inr ⟨v, hf, hv⟩)
        rw [hn]; rfl
      · rw [hf]; rfl
    rw [hrun, hfocus]
    rfl
  · intro f hf hne
    have hfocus : (asString (args.lookup "focus")).getD "" = f := by rw [hf]; rfl
    rw [hrun, hfocus]
    simp only [shaped, Client.GenerateContent, reviewPrompt, List.map_cons, List.map_nil,
      if_pos hne, ne_eq]

/-- C14 on a review whose `focus` is bound to a number. -/
theorem code_review_focus_witness :
    ((NewToolHandler (clientOver (answering "ok"))).ExecuteTool (fun _ => .ok JVal.null)
        "gemini_code_review"
        [("code", JVal.str "x=1"), ("language", JVal.str "python"),
         ("focus", JVal.num 7)]).2.map GenCall.text =
      ["Review the following " ++ "python" ++
        " code and provide detailed feedback.\n\nCode:\n" ++ "x=1" ++ "\n\n" ++ reviewRubric] :=
  (code_review_focus (fun _ => .ok JVal.null) (NewToolHandler (clientOver (answering "ok")))
    [("code", JVal.str "x=1"), ("language", JVal.str "python"), ("focus", JVal.num 7)]
    "x=1" "python" rfl rfl).2.1 (Or.inr (Or.inl ⟨JVal.num 7, rfl, fun _ hs => by cases hs⟩))

/-! ## C15: the number of backend calls -/

/-- The two ways any tool call can run: a fault without any call to the backend, or one
call whose outcome is shaped into the result. -/
theorem ExecuteTool_shape (u : String → Except String JVal) (h : ToolHandler)
    (toolName : String) (args : JMap) :
    (∃ m, h.ExecuteTool u toolName args = (.error m, [])) ∨
    (∃ call, h.ExecuteTool u toolName args =
      shaped (extractText (h.vertexClient.genaiClient call), [call])) := by
  by_cases h1 : toolName = "gemini_query"
  · subst h1
    rcases ExecuteTool_registered u h (h.GetTools.get ⟨0, by simp [ToolHandler.GetTools]⟩) (List.get_mem _ _ _) args
      with ⟨_, m, hm⟩ | ⟨_, call, hc⟩
    · exact Or.inl ⟨m, hm⟩
    · exact Or.inr ⟨call, hc⟩
  by_cases h2 : toolName = "gemini_query_with_search"
  · subst h2
    rcases ExecuteTool_registered u h (h.GetTools.get ⟨1, by simp [ToolHandler.GetTools]⟩) (List.get_mem _ _ _) args
      with ⟨_, m, hm⟩ | ⟨_, call, hc⟩
    · exact Or.inl ⟨m, hm⟩
    · exact Or.inr ⟨call, hc⟩
  by_cases h3 : toolName = "gemini_code_review"
  · subst h3
    rcases ExecuteTool_registered u h (h.GetTools.get ⟨2, by simp [ToolHandler.GetTools]⟩) (List.get_mem _ _ _) args
      with ⟨_, m, hm⟩ | ⟨_, call, hc⟩
    · exact Or.inl ⟨m, hm⟩
    · exact Or.inr ⟨call, hc⟩
  · left
    refine ⟨"unknown tool: " ++ toolName, ?_⟩
    unfold ToolHandler.ExecuteTool
    rw [if_neg h1, if_neg h2, if_neg h3]

/-- C15. For any tool name, arguments and backend, `ExecuteTool` calls the backend no
times when it returns a fault and once when it does not, so never more than once,
also when the backend fails; it returns no fault, and so calls once, for a registered
tool whose required arguments are all strings, and it faults for a name that is not
registered. -/
theorem ExecuteTool_calls_backend_once (u : String → Except String JVal) (h : ToolHandler)
    (toolName : String) (args : JMap) :
    (h.ExecuteTool u toolName args).2.length =
        (if isFault (h.ExecuteTool u toolName args).1 = true then 0 else 1) ∧
    (h.ExecuteTool u toolName args).2.length ≤ 1 ∧
    (∀ t ∈ h.GetTools, (∀ k ∈ t.InputSchema.Required, ∃ s, args.lookup k = some (JVal.str s)) →
      isFault (h.ExecuteTool u t.Name args).1 = false ∧
      (h.ExecuteTool u t.Name args).2.length = 1) ∧
    (toolName ∉ h.GetTools.map Tool.Name →
      isFault (h.ExecuteTool u toolName args).1 = true ∧
      (h.ExecuteTool u toolName args).2.length = 0) := by
  have count : ∀ n : String, (h.ExecuteTool u n args).2.length =
      (if isFault (h.ExecuteTool u n args).1 = true then 0 else 1) := by
    intro n
    rcases ExecuteTool_shape u h n args with ⟨m, hm⟩ | ⟨call, hc⟩
    · rw [hm]; rfl
    · rw [hc, isFault_shaped]; rfl
  refine ⟨count toolName, ?_, ?_, ?_⟩
  · rw [count toolName]
    split <;> decide
  · intro t ht hreq
    have hv : isFault (h.ExecuteTool u t.Name args).1 = false := by
      rcases ExecuteTool_registered u h t ht args with ⟨⟨k, hk, hn⟩, _⟩ | ⟨_, call, hc⟩
      · obtain ⟨s, hs⟩ := hreq k hk
        rw [hs] at hn
        cases hn
      · rw [hc, isFault_shaped]
    refine ⟨hv, ?_⟩
    rw [count t.Name, hv]
    rfl
  · intro hn
    have h1 : toolName ≠ "gemini_query" := fun e => hn (by simp [e, ToolHandler.GetTools])
    have h2 : toolName ≠ "gemini_query_with_search" :=
      fun e => hn (by simp [e, ToolHandler.GetTools])
    have h3 : toolName ≠ "gemini_code_review" :=
      fun e => hn (by simp [e, ToolHandler.GetTools])
    have hx : h.ExecuteTool u toolName args = (.error ("unknown tool: " ++ toolName), []) := by
      unfold ToolHandler.ExecuteTool
      rw [if_neg h1, if_neg h2, if_neg h3]
    rw [hx]
    exact ⟨rfl, rfl⟩

/-- C15 on a valid `gemini_query` call over a backend that fails. -/
theorem ExecuteTool_calls_backend_once_witness :
    isFault ((NewToolHandler (clientOver (failing "quota"))).ExecuteTool (fun _ => .ok JVal.null)
        "gemini_query" [("prompt", JVal.str "hi")]).1 = false ∧
    ((NewToolHandler (clientOver (failing "quota"))).ExecuteTool (fun _ => .ok JVal.null)
        "gemini_query" [("prompt", JVal.str "hi")]).2.length = 1 :=
  (ExecuteTool_calls_backend_once (fun _ => .ok JVal.null)
    (NewToolHandler (clientOver (failing "quota"))) "gemini_query"
    [("prompt", JVal.str "hi")]).2.2.1
    ((NewToolHandler (clientOver (failing "quota"))).GetTools.get ⟨0, by decide⟩)
    (List.get_mem _ _ _) (fun k hk => ⟨"hi", by
      have hk0 : k = "prompt" := List.mem_singleton.mp hk
      rw [hk0]; rfl⟩)

/-! ## C16: the encoding of a result -/

/-- C16. The result of a tool call whose backend call succeeds is encoded as an object
with the single member `content`, without `isError`, and the result of one whose
backend call fails as an object whose `isError` member is true.  A `tools/call`
request with the id 1 for `gemini_code_review` with `code` "x=1" and `language`
"python", over a backend that answers "looks fine", is answered with the envelope of
id 1 whose result is the object with the single member `content`, one text block
holding "looks fine". -/
theorem successful_result_has_no_isError (J : JsonLib) (s : Server) (r : HttpRequest)
    (req : JsonRpcRequest) (args : JMap) (hm : r.Method = "POST")
    (hd : J.decodeRequest r.Body = .ok req) (hid : req.ID = JVal.num 1)
    (hc : req.Method = "tools/call")
    (hp : J.unmarshalParams req.Params =
      .ok { Name := "gemini_code_review", Arguments := args })
    (hcode : args.lookup "code" = some (JVal.str "x=1"))
    (hlang : args.lookup "language" = some (JVal.str "python"))
    (hb : ∀ call, extractText (s.toolHandler.vertexClient.genaiClient call) = .ok "looks fine") :
    (s.ServeHTTP J r).response.Body = ResponseBody.json (JVal.obj
      [("jsonrpc", JVal.str "2.0"), ("id", JVal.num 1),
       ("result", JVal.obj [("content", JVal.arr
          [JVal.obj [("type", JVal.str "text"), ("text", JVal.str "looks fine")]])])]) ∧
    (∀ (u : String → Except String JVal) (h : ToolHandler) (toolName : String) (args0 : JMap)
        (call : GenCall), call ∈ (h.ExecuteTool u toolName args0).2 →
      (∀ text, extractText (h.vertexClient.genaiClient call) = .ok text →
        (h.ExecuteTool u toolName args0).1.toOption.map CallToolResult.toJSON =
          some (JVal.obj [("content", JVal.arr
            [JVal.obj [("type", JVal.str "text"), ("text", JVal.str text)]])])) ∧
      (∀ err, extractText (h.vertexClient.genaiClient call) = .error err →
        ((h.ExecuteTool u toolName args0).1.toOption.map CallToolResult.toJSON).bind
          (fun v => v.field "isError") = some (JVal.bool true))) := by
  constructor
  · have hcs : asString (args.lookup "code") = some "x=1" := by rw [hcode]; rfl
    have hls : asString (args.lookup "language") = some "python" := by rw [hlang]; rfl
    rw [ServeHTTP_call J s r req hm hd hc, handleCallTool_ok J s req.Params _ hp, hid]
    simp only [ExecuteTool_review, executeCodeReview_eq, hcs, hls, Client.GenerateContent,
      shaped_fst, hb]
    rfl
  · intro u h toolName args0 call hcall
    rcases ExecuteTool_shape u h toolName args0 with ⟨m, hx⟩ | ⟨call0, hx⟩
    · rw [hx] at hcall
      cases hcall
    · rw [hx] at hcall ⊢
      have hcc : call = call0 := by simpa [shaped] using hcall
      subst hcc
      constructor
      · intro text ht
        rw [shaped_fst, ht]
        rfl
      · intro err he
        rw [shaped_fst, he]
        rfl

/-- C16 on the scenario, with the stub library and the stub backend. -/
theorem successful_result_has_no_isError_witness :
    ((NewServer (clientOver (answering "looks fine"))).ServeHTTP
        (fixedLib (envelope (JVal.num 1) "tools/call")
          { Name := "gemini_code_review",
            Arguments := [("code", JVal.str "x=1"), ("language", JVal.str "python")] })
        postRequest).response.Body = ResponseBody.json (JVal.obj
      [("jsonrpc", JVal.str "2.0"), ("id", JVal.num 1),
       ("result", JVal.obj [("content", JVal.arr
          [JVal.obj [("type", JVal.str "text"), ("text", JVal.str "looks fine")]])])]) :=
  (successful_result_has_no_isError
    (fixedLib (envelope (JVal.num 1) "tools/call")
      { Name := "gemini_code_review",
        Arguments := [("code", JVal.str "x=1"), ("language", JVal.str "python")] })
    (NewServer (clientOver (answering "looks fine"))) postRequest
    (envelope (JVal.num 1) "tools/call")
    [("code", JVal.str "x=1"), ("language", JVal.str "python")]
    rfl rfl rfl rfl rfl rfl rfl (fun _ => rfl)).1

/-! ## C17: the HTTP layer -/

/-- The headers of a response: the three cross-origin headers alone, or followed by the
content type of an envelope, or by the two headers of a plain-text error. -/
theorem ServeHTTP_headers (J : JsonLib) (s : Server) (r : HttpRequest) :
    (s.ServeHTTP J r).response.Header = corsWriter.Header ∨
    (s.ServeHTTP J r).response.Header =
      corsWriter.Header ++ [("Content-Type", "application/json")] ∨
    (s.ServeHTTP J r).response.Header =
      corsWriter.Header ++ [("Content-Type", "text/plain; charset=utf-8"),
        ("X-Content-Type-Options", "nosniff")] := by
  by_cases ho : r.Method = "OPTIONS"
  · left
    unfold Server.ServeHTTP
    rw [if_pos ho]
    rfl
  by_cases hm : r.Method = "POST"
  swap
  · right; right
    unfold Server.ServeHTTP
    rw [if_neg ho, if_pos hm]
    rfl
  cases hd : J.decodeRequest r.Body with
  | error err =>
    right; right
    unfold Server.ServeHTTP
    rw [if_neg ho, if_neg (not_not.mpr hm)]
    simp only [hd]
    rfl
  | ok req =>
    rw [ServeHTTP_post J s r req hm hd]
    by_cases h1 : req.Method = "initialize"
    · rw [if_pos h1]
      exact Or.inr (Or.inl rfl)
    by_cases h2 : req.Method = "notifications/initialized"
    · rw [if_neg h1, if_pos h2]
      exact Or.inl rfl
    by_cases h3 : req.Method = "tools/list"
    · rw [if_neg h1, if_neg h2, if_pos h3]
      exact Or.inr (Or.inl rfl)
    by_cases h4 : req.Method = "tools/call"
    · rw [if_neg h1, if_neg h2, if_neg h3, if_pos h4]
      rcases s.handleCallTool J req.Params with ⟨res | e | _, d, g⟩
      · exact Or.inr (Or.inl rfl)
      · exact Or.inr (Or.inl rfl)
      · exact Or.inl rfl
    · rw [if_neg h1, if_neg h2, if_neg h3, if_neg h4]
      exact Or.inr (Or.inl rfl)

/-- C17. An OPTIONS request is answered with the status 200 and no body; any other
request that is not a POST with the plain text "Method not allowed" and the status
405; a POST whose body does not decode with a plain text "Invalid JSON: ..." and the
status 400.  None of the three writes an envelope, dispatches a tool call or calls the
backend.  Every response carries the three cross-origin headers. -/
theorem ServeHTTP_transport (J : JsonLib) (s : Server) (r : HttpRequest) :
    (r.Method = "OPTIONS" →
      (s.ServeHTTP J r).response.Status = 200 ∧
      (s.ServeHTTP J r).response.Body = ResponseBody.empty ∧
      (s.ServeHTTP J r).dispatched = [] ∧ (s.ServeHTTP J r).generated = []) ∧
    (r.Method ≠ "OPTIONS" → r.Method ≠ "POST" →
      (s.ServeHTTP J r).response.Status = 405 ∧
      (s.ServeHTTP J r).response.Body = ResponseBody.text "Method not allowed\n" ∧
      (s.ServeHTTP J r).response.Header.lookup "Content-Type" =
        some "text/plain; charset=utf-8" ∧
      (s.ServeHTTP J r).dispatched = [] ∧ (s.ServeHTTP J r).generated = []) ∧
    (∀ err, r.Method = "POST" → J.decodeRequest r.Body = .error err →
      (s.ServeHTTP J r).response.Status = 400 ∧
      (s.ServeHTTP J r).response.Body = ResponseBody.text ("Invalid JSON: " ++ err ++ "\n") ∧
      (s.ServeHTTP J r).response.Header.lookup "Content-Type" =
        some "text/plain; charset=utf-8" ∧
      (s.ServeHTTP J r).dispatched = [] ∧ (s.ServeHTTP J r).generated = []) ∧
    ((s.ServeHTTP J r).response.Header.lookup "Access-Control-Allow-Origin" = some "*" ∧
      (s.ServeHTTP J r).response.Header.lookup "Access-Control-Allow-Methods" =
        some "POST, OPTIONS" ∧
      (s.ServeHTTP J r).response.Header.lookup "Access-Control-Allow-Headers" =
        some "Content-Type") := by
  refine ⟨?_, ?_, ?_, ?_⟩
  · intro ho
    unfold Server.ServeHTTP
    rw [if_pos ho]
    exact ⟨rfl, rfl, rfl, rfl⟩
  · intro ho hm
    unfold Server.ServeHTTP
    rw [if_neg ho, if_pos hm]
    exact ⟨rfl, rfl, rfl, rfl, rfl⟩
  · intro err hm hd
    unfold Server.ServeHTTP
    rw [hm]
    simp only [hd]
    exact ⟨rfl, rfl, rfl, rfl, rfl⟩
  · rcases ServeHTTP_headers J s r with h | h | h <;> rw [h] <;> exact ⟨rfl, rfl, rfl⟩

/-- C17 on a GET request. -/
theorem ServeHTTP_transport_witness :
    ((NewServer (clientOver (answering "ok"))).ServeHTTP
        (fixedLib (envelope JVal.null "initialize") { Name := "", Arguments := [] })
        { Method := "GET", Body := [] }).response.Status = 405 ∧
    ((NewServer (clientOver (answering "ok"))).ServeHTTP
        (fixedLib (envelope JVal.null "initialize") { Name := "", Arguments := [] })
        { Method := "GET", Body := [] }).response.Body =
      ResponseBody.text "Method not allowed\n" ∧
    ((NewServer (clientOver (answering "ok"))).ServeHTTP
        (fixedLib (envelope JVal.null "initialize") { Name := "", Arguments := [] })
        { Method := "GET", Body := [] }).response.Header.lookup "Content-Type" =
      some "text/plain; charset=utf-8" ∧
    ((NewServer (clientOver (answering "ok"))).ServeHTTP
        (fixedLib (envelope JVal.null "initialize") { Name := "", Arguments := [] })
        { Method := "GET", Body := [] }).dispatched = [] ∧
    ((NewServer (clientOver (answering "ok"))).ServeHTTP
        (fixedLib (envelope JVal.null "initialize") { Name := "", Arguments := [] })
        { Method := "GET", Body := [] }).generated = [] :=
  (ServeHTTP_transport
    (fixedLib (envelope JVal.null "initialize") { Name := "", Arguments := [] })
    (NewServer (clientOver (answering "ok"))) { Method := "GET", Body := [] }).2.1
    (by decide) (by decide)

/-! ## C18: the message of a validation fault -/

/-- C18. The message of a validation fault names the first required field, in schema
order, that is absent or not a string.  For the two query tools it is
"prompt must be a string"; for `gemini_code_review` it is "code must be a string"
whenever `code` is absent or not a string, whatever `language` is, and
"language must be a string" exactly when `code` is a string and `language` is absent
or not a string. -/
theorem validation_fault_names_first_offender (u : String → Except String JVal)
    (h : ToolHandler) (args : JMap) :
    (∀ t ∈ h.GetTools, ∀ k, t.InputSchema.Required.find? (notAString args) = some k →
      (h.ExecuteTool u t.Name args).1 = .error (k ++ " must be a string")) ∧
    (notAString args "prompt" = true →
      (h.ExecuteTool u "gemini_query" args).1 = .error "prompt must be a string" ∧
      (h.ExecuteTool u "gemini_query_with_search" args).1 = .error "prompt must be a string") ∧
    (notAString args "code" = true →
      (h.ExecuteTool u "gemini_code_review" args).1 = .error "code must be a string") ∧
    ((h.ExecuteTool u "gemini_code_review" args).1 = .error "language must be a string" ↔
      (notAString args "code" = false ∧ notAString args "language" = true)) := by
  refine ⟨?_, ?_, ?_, ?_⟩
  · intro t ht k hk
    simp only [ToolHandler.GetTools, List.mem_cons, List.mem_singleton, List.not_mem_nil,
      or_false] at ht
    rcases ht with rfl | rfl | rfl
    · simp only [ExecuteTool_query, executeGeminiQuery_eq]
      simp only [List.find?, notAString] at hk
      cases hp : asString (args.lookup "prompt") with
      | none =>
        rw [hp] at hk
        cases hk
        rfl
      | some p =>
        rw [hp] at hk
        cases hk
    · simp only [ExecuteTool_search, executeGeminiQueryWithSearch_eq]
      simp only [List.find?, notAString] at hk
      cases hp : asString (args.lookup "prompt") with
      | none =>
        rw [hp] at hk
        cases hk
        rfl
      | some p =>
        rw [hp] at hk
        cases hk
    · simp only [ExecuteTool_review, executeCodeReview_eq]
      simp only [List.find?, notAString] at hk
      cases hc : asString (args.lookup "code") with
      | none =>
        rw [hc] at hk
        cases hk
        rfl
      | some c =>
        rw [hc] at hk
        cases hl : asString (args.lookup "language") with
        | none =>
          rw [hl] at hk
          cases hk
          rfl
        | some l =>
          rw [hl] at hk
          cases hk
  · intro hp
    have hn : asString (args.lookup "prompt") = none := by
      simpa [notAString] using hp
    simp only [ExecuteTool_query, ExecuteTool_search, executeGeminiQuery_eq,
      executeGeminiQueryWithSearch_eq, hn]
    exact ⟨trivial, trivial⟩
  · intro hc
    have hn : asString (args.lookup "code") = none := by
      simpa [notAString] using hc
    simp only [ExecuteTool_review, executeCodeReview_eq, hn]
  · simp only [ExecuteTool_review, executeCodeReview_eq, notAString]
    cases hc : asString (args.lookup "code") with
    | none => simp
    | some c =>
      cases hl : asString (args.lookup "language") with
      | none => simp
      | some l =>
        have hne := shaped_ne_error (h.vertexClient.GenerateContent
          (reviewPrompt l c ((asString (args.lookup "focus")).getD ""))) "language must be a string"
        simp [hne]

/-- C18 on a review whose `code` and `language` are both numbers. -/
theorem validation_fault_names_first_offender_witness :
    ((NewToolHandler (clientOver (answering "ok"))).ExecuteTool (fun _ => .ok JVal.null)
        "gemini_code_review" [("code", JVal.num 1), ("language", JVal.num 2)]).1 =
      .error ("code" ++ " must be a string") :=
  (validation_fault_names_first_offender (fun _ => .ok JVal.null)
    (NewToolHandler (clientOver (answering "ok")))
    [("code", JVal.num 1), ("language", JVal.num 2)]).1
    ((NewToolHandler (clientOver (answering "ok"))).GetTools.get ⟨2, by decide⟩)
    (List.get_mem _ _ _) "code" rfl

/-! ## C19: the configuration at start-up -/

/-- What the configuration part of `main` settles on when the project is set. -/
theorem mainConfig_ok (getenv : String → String) (hp : getenv "GOOGLE_CLOUD_PROJECT" ≠ "") :
    mainConfig getenv = .ok
      ({ ProjectID := getenv "GOOGLE_CLOUD_PROJECT",
         Location :=
          if getenv "GEMINI_MODEL" = "" ∨ getenv "GEMINI_MODEL" = "gemini-3-pro-preview" ∨
              getenv "GEMINI_MODEL" = "gemini-3-flash-preview" ∨
              getenv "GOOGLE_CLOUD_LOCATION" = "" then "global"
          else getenv "GOOGLE_CLOUD_LOCATION",
         ModelName :=
          if getenv "GEMINI_MODEL" = "" then "gemini-3-pro-preview" else getenv "GEMINI_MODEL" },
        if getenv "PORT" = "" then "8080" else getenv "PORT") := by
  unfold mainConfig
  by_cases hl : getenv "GOOGLE_CLOUD_LOCATION" = "" <;>
    by_cases hm : getenv "GEMINI_MODEL" = "" <;>
    by_cases h1 : getenv "GEMINI_MODEL" = "gemini-3-pro-preview" <;>
    by_cases h2 : getenv "GEMINI_MODEL" = "gemini-3-flash-preview" <;>
    by_cases hg : getenv "GOOGLE_CLOUD_LOCATION" = "global" <;>
    simp_all

/-- On a configuration without empty fields `NewClient` changes nothing before it
creates the client. -/
theorem NewClient_filled (newGenai : GenaiNewClient) (cfg : Config)
    (hp : cfg.ProjectID ≠ "") (hl : cfg.Location ≠ "") (hm : cfg.ModelName ≠ "") :
    NewClient newGenai cfg =
      match newGenai { Project := cfg.ProjectID, Location := cfg.Location } with
      | .error err =>
        (.error ("failed to create Vertex AI client: " ++ err),
          [{ Project := cfg.ProjectID, Location := cfg.Location }])
      | .ok client =>
        (.ok { genaiClient := client, projectID := cfg.ProjectID, location := cfg.Location,
               modelName := cfg.ModelName },
          [{ Project := cfg.ProjectID, Location := cfg.Location }]) := by
  unfold NewClient
  simp only [if_neg hp, if_neg hl, if_neg hm]

/-- C19. With a non-empty project id the start-up settles on a configuration in which
an empty location has become "global", an empty model name has become
"gemini-3-pro-preview", the location is "global" whenever the resulting model name is
"gemini-3-pro-preview" or "gemini-3-flash-preview", and for every other model name a
non-empty configured location is kept; the client is created with that project and
location and holds that location and model name.  With an empty project id the
start-up ends in the fatal message before any client or server is created. -/
theorem startup_config (getenv : String → String) (newGenai : GenaiNewClient) :
    (getenv "GOOGLE_CLOUD_PROJECT" ≠ "" →
      ∃ cfg port, mainConfig getenv = .ok (cfg, port) ∧
        cfg.ProjectID = getenv "GOOGLE_CLOUD_PROJECT" ∧
        (getenv "GOOGLE_CLOUD_LOCATION" = "" → cfg.Location = "global") ∧
        (getenv "GEMINI_MODEL" = "" → cfg.ModelName = "gemini-3-pro-preview") ∧
        (getenv "GEMINI_MODEL" ≠ "" → cfg.ModelName = getenv "GEMINI_MODEL") ∧
        (cfg.ModelName = "gemini-3-pro-preview" ∨ cfg.ModelName = "gemini-3-flash-preview" →
          cfg.Location = "global") ∧
        (cfg.ModelName ≠ "gemini-3-pro-preview" → cfg.ModelName ≠ "gemini-3-flash-preview" →
          getenv "GOOGLE_CLOUD_LOCATION" ≠ "" →
          cfg.Location = getenv "GOOGLE_CLOUD_LOCATION") ∧
        (main getenv newGenai).clients =
          [{ Project := cfg.ProjectID, Location := cfg.Location }] ∧
        (∀ g, newGenai { Project := cfg.ProjectID, Location := cfg.Location } = .ok g →
          (main getenv newGenai).outcome = Startup.serving cfg port
            (NewServer { genaiClient := g, projectID := cfg.ProjectID,
                         location := cfg.Location, modelName := cfg.ModelName }))) ∧
    (getenv "GOOGLE_CLOUD_PROJECT" = "" →
      (main getenv newGenai).outcome =
          Startup.fatal "GOOGLE_CLOUD_PROJECT environment variable is required" ∧
        (main getenv newGenai).clients = []) := by
  constructor
  · intro hp
    have hcfg := mainConfig_ok getenv hp
    refine ⟨_, _, hcfg, rfl, ?_, ?_, ?_, ?_, ?_, ?_, ?_⟩
    · intro hl
      simp [hl]
    · intro hm
      simp [hm]
    · intro hm
      simp [hm]
    · intro hmod
      by_cases hm : getenv "GEMINI_MODEL" = ""
      · simp [hm]
      · simp only [if_neg hm] at hmod
        rcases hmod with h1 | h2
        · simp [h1]
        · simp [h2]
    · intro h1 h2 hl
      by_cases hm : getenv "GEMINI_MODEL" = ""
      · simp [hm] at h1
      · simp only [if_neg hm] at h1 h2
        simp [hm, h1, h2, hl]
    all_goals
      have hloc : (if getenv "GEMINI_MODEL" = "" ∨ getenv "GEMINI_MODEL" = "gemini-3-pro-preview" ∨
          getenv "GEMINI_MODEL" = "gemini-3-flash-preview" ∨
          getenv "GOOGLE_CLOUD_LOCATION" = "" then "global"
          else getenv "GOOGLE_CLOUD_LOCATION") ≠ "" := by
        split
        · decide
        · rename_i hc
          exact fun e => hc (Or.inr (Or.inr (Or.inr e)))
      have hmod : (if getenv "GEMINI_MODEL" = "" then "gemini-3-pro-preview"
          else getenv "GEMINI_MODEL") ≠ "" := by
        split
        · decide
        · assumption
    · unfold main
      rw [hcfg]
      simp only []
      rw [NewClient_filled newGenai _ hp hloc hmod]
      cases newGenai _ <;> rfl
    · intro g hg
      unfold main
      rw [hcfg]
      simp only []
      rw [NewClient_filled newGenai _ hp hloc hmod, hg]
  · intro hp
    have hcfg : mainConfig getenv =
        .error "GOOGLE_CLOUD_PROJECT environment variable is required" := by
      unfold mainConfig
      by_cases hl : getenv "GOOGLE_CLOUD_LOCATION" = "" <;>
        by_cases hm : getenv "GEMINI_MODEL" = "" <;> simp_all
    unfold main
    rw [hcfg]
    exact ⟨rfl, rfl⟩

/-- C19 on a project "demo" configured for "us-central1" with the model
"gemini-3-flash-preview": the location becomes "global". -/
theorem startup_config_witness :
    ∃ cfg port,
      mainConfig (envOf "demo" "us-central1" "gemini-3-flash-preview") = .ok (cfg, port) ∧
      cfg.ModelName = "gemini-3-flash-preview" ∧ cfg.Location = "global" := by
  obtain ⟨cfg, port, hcfg, _, _, _, hmodel, hglobal, _⟩ :=
    (startup_config (envOf "demo" "us-central1" "gemini-3-flash-preview")
      (fun _ => .ok (answering "ok"))).1 (by decide)
  have hm : cfg.ModelName = "gemini-3-flash-preview" := hmodel (by decide)
  exact ⟨cfg, port, hcfg, hm, hglobal (Or.inr hm)⟩

end VertexMcp
